import Mathlib

/-!
# LTR-329ALS luxmeter driver: embedding of `luxmeter.c`

The driver talks to the sensor through two register primitives,
`lux_get_regs` and `lux_set_regs`, and through the `delay_ms` callback of the
device structure.  `luxmeter.h` declares the two primitives; their bodies are
not part of `luxmeter.c`, so their behaviour is a parameter of the development
(`Bus`): every theorem holds for every behaviour of the primitives.

Each call that leaves the driver is appended to a trace (`BusEvent`), and the
answer of a primitive may depend on everything that has happened so far.

`struct lux_config` has every field commented out in `luxmeter_defs.h`.  The
driver only ever copies the structure as a whole (`dev->conf = *conf`), so the
device structure is kept generic in its payload `Cfg`; the structure of the
header is the instance `lux_config`.  What is said of the cached configuration
after `conf_sensor` and `lux_get_config` is said at `lux_config`, the type the
driver is compiled with; where a statement holds for every payload type it is
stated for every payload type.
-/

/-! ## Constants of `luxmeter_defs.h` -/

/-- Chip id reported by the sensor, `LUX_CHIP_ID1`. -/
def LUX_CHIP_ID1 : Nat := 0xA0

/-- Success code. -/
def LUX_OK : Int := 0
/-- Error code: null pointer. -/
def LUX_E_NULL_PTR : Int := -1
/-- Error code: device not found. -/
def LUX_E_DEV_NOT_FOUND : Int := -2
/-- Error code: invalid length. -/
def LUX_E_INVALID_LEN : Int := -3
/-- Error code: communication failure. -/
def LUX_E_COMM_FAIL : Int := -4
/-- Error code: invalid mode. -/
def LUX_E_INVALID_MODE : Int := -5

/-- Sleep power mode. -/
def LUX_SLEEP_MODE : Nat := 0x00
/-- Control/measurement register address. -/
def LUX_CTRL_MEAS_ADDR : Nat := 0x85
/-- Second address of the register pair written by `conf_sensor`. -/
def LUX_CONFIG_ADDR : Nat := 0x00

/-- Chip id register. -/
def LUX_CHIP_ID_ADDR : Nat := 0x86
/-- Control register (soft reset). -/
def LUX_CONTR_ADDR : Nat := 0x80
/-- Measurement rate register. -/
def LUX_MEAS_RATE_ADDR : Nat := 0x85
/-- Status register. -/
def LUX_STATUS_ADDR : Nat := 0x8C
/-- First data register (channel 1, low byte). -/
def LUX_DATA_CH1_0_ADDR : Nat := 0x88
/-- Soft reset command byte. -/
def LUX_SOFT_RESET_CMD : Nat := 0x03

/-! ## Data model -/

/-- A non-null `lux_com_fptr_t`: the address of the callback. -/
abbrev lux_com_fptr_t := Nat

/-- A non-null `lux_delay_fptr_t`: the address of the callback. -/
abbrev lux_delay_fptr_t := Nat

/-- The `struct lux_config` of the header: all of its fields are commented out. -/
structure lux_config where
  deriving DecidableEq, Repr

/-- The `struct lux_dev`; a null function pointer is `none`.  `Cfg` is the type
of the configuration payload. -/
structure lux_dev (Cfg : Type) where
  chip_id : Nat
  dev_id : Nat
  read : Option lux_com_fptr_t
  write : Option lux_com_fptr_t
  delay_ms : Option lux_delay_fptr_t
  conf : Cfg
  deriving DecidableEq, Repr

/-- The `struct lux_uncomp_data`. -/
structure lux_uncomp_data where
  uncomp_ch1 : Nat
  uncomp_ch0 : Nat
  deriving DecidableEq, Repr

/-- The `struct lux_status`. -/
structure lux_status where
  data_valid : Nat
  gain_range : Nat
  data_status : Nat
  deriving DecidableEq, Repr

/-! ## The world outside the driver -/

/-- One call leaving the driver: a register read (`lux_get_regs`, start address
and length), a register write (`lux_set_regs`, the `len` addresses and the
`len` data bytes handed over) or a call of the `delay_ms` callback. -/
inductive BusEvent where
  | get_regs (reg_addr : Nat) (len : Nat)
  | set_regs (reg_addr : List Nat) (reg_data : List Nat) (len : Nat)
  | delay_ms (period : Nat)
  deriving DecidableEq, Repr

/-- Behaviour of the two register primitives, which `luxmeter.h` declares and
`luxmeter.c` calls but does not define.  Each answer may depend on the trace of
all earlier calls and on the arguments of the call.
* `get_regs tr reg_addr len` is the result code of the read together with the
  bytes it stores at the start of the destination (at most `len` of them are
  stored; a read that stores fewer leaves the rest of the destination alone);
* `set_regs tr reg_addr reg_data len` is the result code of the write. -/
structure Bus where
  get_regs : List BusEvent → Nat → Nat → Int × List Nat
  set_regs : List BusEvent → List Nat → List Nat → Nat → Int

/-- Result of a driver call: its return code, the object it may have written
through a pointer, and the trace afterwards. -/
structure Ret (α : Type) where
  rslt : Int
  val : α
  trace : List BusEvent
  deriving DecidableEq, Repr

/-- Storing the bytes of a read into a `uint8_t` destination: at most `len`
bytes, never past the end of the destination, each reduced to 8 bits. -/
def store_bytes (buf bytes : List Nat) (len : Nat) : List Nat :=
  let src := (bytes.take (min len buf.length)).map (fun b => b % 256)
  src ++ buf.drop src.length

/-- The call `lux_get_regs(reg_addr, reg_data, len, dev)`: result code, the
destination afterwards, the trace afterwards. -/
def lux_get_regs (bus : Bus) (reg_addr : Nat) (reg_data : List Nat) (len : Nat)
    (tr : List BusEvent) : Int × List Nat × List BusEvent :=
  let resp := bus.get_regs tr reg_addr len
  (resp.1, store_bytes reg_data resp.2 len, tr ++ [BusEvent.get_regs reg_addr len])

/-- The call `lux_set_regs(reg_addr, reg_data, len, dev)`: result code and the
trace afterwards.  The callee is handed `len` addresses and `len` bytes. -/
def lux_set_regs (bus : Bus) (reg_addr reg_data : List Nat) (len : Nat)
    (tr : List BusEvent) : Int × List BusEvent :=
  (bus.set_regs tr (reg_addr.take len) (reg_data.take len) len,
   tr ++ [BusEvent.set_regs (reg_addr.take len) (reg_data.take len) len])

/-- The call `dev->delay_ms(period)`. -/
def delay_ms (period : Nat) (tr : List BusEvent) : List BusEvent :=
  tr ++ [BusEvent.delay_ms period]

/-! ## The functions of `luxmeter.c` -/

section Driver

variable {Cfg : Type}

/-- Source `null_ptr_check`. -/
def null_ptr_check (dev : Option (lux_dev Cfg)) : Int :=
  match dev with
  | none => LUX_E_NULL_PTR
  | some d =>
    if d.read.isNone || d.write.isNone || d.delay_ms.isNone then
      LUX_E_NULL_PTR
    else
      LUX_OK

/-- Source `lux_soft_reset`; `dev` is `const`, so only the result code and the
trace come back. -/
def lux_soft_reset (bus : Bus) (dev : Option (lux_dev Cfg)) (tr : List BusEvent) :
    Int × List BusEvent :=
  let reg_addr := [LUX_CONTR_ADDR]
  let soft_rst_cmd := [LUX_SOFT_RESET_CMD]
  let rslt := null_ptr_check dev
  if rslt = LUX_OK then
    let w := lux_set_regs bus reg_addr soft_rst_cmd 1 tr
    (w.1, delay_ms 10 w.2)
  else
    (rslt, tr)

/-- The `while (try_count)` loop of `lux_init`, from the current `try_count`,
`rslt`, device structure and trace, to their values when the loop is left.
The read stores straight into `dev->chip_id`. -/
def lux_init_loop (bus : Bus) :
    Nat → Int → lux_dev Cfg → List BusEvent → Nat × Int × lux_dev Cfg × List BusEvent
  | 0, rslt, d, tr => (0, rslt, d, tr)
  | try_count + 1, _, d, tr =>
    let r := lux_get_regs bus LUX_CHIP_ID_ADDR [d.chip_id] 1 tr
    let d1 := { d with chip_id := r.2.1.headD d.chip_id }
    if r.1 = LUX_OK ∧ d1.chip_id = LUX_CHIP_ID1 then
      let s := lux_soft_reset bus (some d1) r.2.2
      (try_count + 1, s.1, d1, s.2)
    else
      lux_init_loop bus try_count r.1 d1 (delay_ms 10 r.2.2)

/-- Source `lux_init`. -/
def lux_init (bus : Bus) (dev : Option (lux_dev Cfg)) (tr : List BusEvent) :
    Ret (Option (lux_dev Cfg)) :=
  let rslt := null_ptr_check dev
  match dev with
  | some d =>
    if rslt = LUX_OK then
      let l := lux_init_loop bus 5 rslt d tr
      let rslt := if l.1 = 0 then LUX_E_DEV_NOT_FOUND else l.2.1
      ⟨rslt, some l.2.2.1, l.2.2.2⟩
    else
      ⟨rslt, some d, tr⟩
  | none => ⟨rslt, none, tr⟩

/-- Source `lux_get_config`: the register read and the decoding are commented
out, the copy into `dev->conf` is not. -/
def lux_get_config (_bus : Bus) (conf : Option Cfg) (dev : Option (lux_dev Cfg))
    (tr : List BusEvent) : Ret (Option (lux_dev Cfg)) :=
  let rslt := null_ptr_check dev
  match dev, conf with
  | some d, some c =>
    if rslt = LUX_OK then
      ⟨rslt, some { d with conf := c }, tr⟩
    else
      ⟨LUX_E_NULL_PTR, some d, tr⟩
  | _, _ => ⟨LUX_E_NULL_PTR, dev, tr⟩

/-- Source `conf_sensor`. -/
def conf_sensor (bus : Bus) (mode : Nat) (conf : Option Cfg) (dev : Option (lux_dev Cfg))
    (tr : List BusEvent) : Ret (Option (lux_dev Cfg)) :=
  let temp := [0, 0]
  let reg_addr := [LUX_CTRL_MEAS_ADDR, LUX_CONFIG_ADDR]
  let rslt := null_ptr_check dev
  match dev, conf with
  | some d, some c =>
    if rslt = LUX_OK then
      let r := lux_get_regs bus LUX_CTRL_MEAS_ADDR temp 2 tr
      if r.1 = LUX_OK then
        let s := lux_soft_reset bus (some d) r.2.2
        if s.1 = LUX_OK then
          let w := lux_set_regs bus reg_addr r.2.1 2 s.2
          if w.1 = LUX_OK then
            let d1 := { d with conf := c }
            if mode ≠ LUX_SLEEP_MODE then
              let p := lux_set_regs bus reg_addr r.2.1 1 w.2
              ⟨p.1, some d1, p.2⟩
            else
              ⟨w.1, some d1, w.2⟩
          else
            ⟨w.1, some d, w.2⟩
        else
          ⟨s.1, some d, s.2⟩
      else
        ⟨r.1, some d, r.2.2⟩
    else
      ⟨LUX_E_NULL_PTR, some d, tr⟩
  | _, _ => ⟨LUX_E_NULL_PTR, dev, tr⟩

/-- Source `lux_set_config`. -/
def lux_set_config (bus : Bus) (conf : Option Cfg) (dev : Option (lux_dev Cfg))
    (tr : List BusEvent) : Ret (Option (lux_dev Cfg)) :=
  conf_sensor bus LUX_SLEEP_MODE conf dev tr

/-- Source `lux_get_status`: one read into a local byte; the decoding into
`*status` is commented out, so `*status` is returned as it was. -/
def lux_get_status (bus : Bus) (status : Option lux_status) (dev : Option (lux_dev Cfg))
    (tr : List BusEvent) : Ret (Option lux_status) :=
  let rslt := null_ptr_check dev
  if rslt = LUX_OK ∧ status.isSome then
    let r := lux_get_regs bus LUX_STATUS_ADDR [0] 1 tr
    ⟨r.1, status, r.2.2⟩
  else
    ⟨LUX_E_NULL_PTR, status, tr⟩

/-- Source `lux_get_power_mode`: one read into a local byte; the decoding into
`*mode` is commented out, so `*mode` is returned as it was. -/
def lux_get_power_mode (bus : Bus) (mode : Option Nat) (dev : Option (lux_dev Cfg))
    (tr : List BusEvent) : Ret (Option Nat) :=
  let rslt := null_ptr_check dev
  if rslt = LUX_OK ∧ mode.isSome then
    let r := lux_get_regs bus LUX_CTRL_MEAS_ADDR [0] 1 tr
    ⟨r.1, mode, r.2.2⟩
  else
    ⟨LUX_E_NULL_PTR, mode, tr⟩

/-- Source `lux_set_power_mode`; `&dev->conf` is the cached configuration. -/
def lux_set_power_mode (bus : Bus) (mode : Nat) (dev : Option (lux_dev Cfg))
    (tr : List BusEvent) : Ret (Option (lux_dev Cfg)) :=
  let rslt := null_ptr_check dev
  match dev with
  | some d =>
    if rslt = LUX_OK then
      conf_sensor bus mode (some d.conf) (some d) tr
    else
      ⟨rslt, some d, tr⟩
  | none => ⟨rslt, none, tr⟩

/-- Source `lux_get_uncomp_data`: a 4-byte read into `temp[6] = {0}`, then both
channels are assembled whatever the read returned. -/
def lux_get_uncomp_data (bus : Bus) (uncomp_data : Option lux_uncomp_data)
    (dev : Option (lux_dev Cfg)) (tr : List BusEvent) : Ret (Option lux_uncomp_data) :=
  let temp := [0, 0, 0, 0, 0, 0]
  let rslt := null_ptr_check dev
  match uncomp_data with
  | some _ =>
    if rslt = LUX_OK then
      let r := lux_get_regs bus LUX_DATA_CH1_0_ADDR temp 4 tr
      let t := r.2.1
      ⟨r.1,
       some { uncomp_ch1 := ((t.getD 0 0 % 65536) ||| ((t.getD 1 0 % 65536) <<< 8)) % 65536,
              uncomp_ch0 := ((t.getD 2 0 % 65536) ||| ((t.getD 3 0 % 65536) <<< 8)) % 65536 },
       r.2.2⟩
    else
      ⟨LUX_E_NULL_PTR, uncomp_data, tr⟩
  | none => ⟨LUX_E_NULL_PTR, none, tr⟩

end Driver

/-- The `for` loop of `interleave_data`, from the current `index` and buffer.
`index` is a `uint8_t`, so `index++` wraps at 256.  A store past the end of
`temp_buff` is dropped.  The first argument bounds the number of rounds; the
result is `none` when the bound is used up with the loop condition still true. -/
def interleave_loop (reg_addr reg_data : List Nat) (len : Nat) :
    Nat → Nat → List Nat → Option (List Nat)
  | 0, index, temp_buff => if index < len then none else some temp_buff
  | fuel + 1, index, temp_buff =>
    if index < len then
      let temp_buff := temp_buff.set (index * 2 - 1) (reg_addr.getD index 0)
      let temp_buff := temp_buff.set (index * 2) (reg_data.getD index 0)
      interleave_loop reg_addr reg_data len fuel ((index + 1) % 256) temp_buff
    else
      some temp_buff

/-- Source `interleave_data`: the loop from `index = 1`, with 256 rounds
allowed; the result is the buffer `temp_buff` when the loop is left. -/
def interleave_data (reg_addr temp_buff reg_data : List Nat) (len : Nat) :
    Option (List Nat) :=
  interleave_loop reg_addr reg_data len 256 1 temp_buff

/-! ## Notions used in the statements -/

section Notions

variable {Cfg : Type}

/-- A valid handle: the device structure is there with its three callbacks. -/
def handle_valid (d : lux_dev Cfg) : Prop :=
  d.read ≠ none ∧ d.write ≠ none ∧ d.delay_ms ≠ none

/-- An absent handle, or one with an absent read, write or delay callback. -/
def handle_absent (dev : Option (lux_dev Cfg)) : Prop :=
  match dev with
  | none => True
  | some d => d.read = none ∨ d.write = none ∨ d.delay_ms = none

/-- The calls made by `j` failed identification attempts of `lux_init`: each is
a one-byte read of the chip-id register followed by a 10 ms delay. -/
def failed_attempts : Nat → List BusEvent
  | 0 => []
  | j + 1 => BusEvent.get_regs LUX_CHIP_ID_ADDR 1 :: BusEvent.delay_ms 10 :: failed_attempts j

/-- Content of `dev->chip_id` after a one-byte read answering `resp` has stored
into it: the byte delivered, or the old content when none was delivered. -/
def chip_id_after (old : Nat) (resp : Int × List Nat) : Nat :=
  (store_bytes [old] resp.2 1).headD old

/-- Content of `dev->chip_id` after the first `j` identification reads of a
`lux_init` that starts with trace `tr` and chip id `c0`, when none of them is
followed by a break. -/
def chip_id_seen (bus : Bus) (tr : List BusEvent) (c0 : Nat) : Nat → Nat
  | 0 => c0
  | j + 1 =>
    chip_id_after (chip_id_seen bus tr c0 j)
      (bus.get_regs (tr ++ failed_attempts j) LUX_CHIP_ID_ADDR 1)

/-- Read number `j + 1` of `lux_init` (after `j` failed attempts) succeeds and
leaves the value `0xA0` in `dev->chip_id`. -/
def identified (bus : Bus) (tr : List BusEvent) (c0 : Nat) (j : Nat) : Prop :=
  (bus.get_regs (tr ++ failed_attempts j) LUX_CHIP_ID_ADDR 1).1 = LUX_OK ∧
    chip_id_seen bus tr c0 (j + 1) = LUX_CHIP_ID1

/-- Every register read and every register write succeeds. -/
def bus_all_ok (bus : Bus) : Prop :=
  (∀ tr a n, (bus.get_regs tr a n).1 = LUX_OK) ∧ (∀ tr a v n, bus.set_regs tr a v n = LUX_OK)

/-- The two bytes of `temp` in `conf_sensor` after the initial read. -/
def conf_temp (bus : Bus) (tr : List BusEvent) : List Nat :=
  store_bytes [0, 0] (bus.get_regs tr LUX_CTRL_MEAS_ADDR 2).2 2

end Notions

/-! ## Decidability of the notions, event classes -/

instance handle_valid_decidable {Cfg : Type} (d : lux_dev Cfg) : Decidable (handle_valid d) := by
  unfold handle_valid; infer_instance

instance identified_decidable (bus : Bus) (tr : List BusEvent) (c0 j : Nat) :
    Decidable (identified bus tr c0 j) := by
  unfold identified; infer_instance

/-- Is the event a register read? -/
def BusEvent.isGet : BusEvent → Bool
  | BusEvent.get_regs _ _ => true
  | _ => false

/-- Is the event a register write? -/
def BusEvent.isSet : BusEvent → Bool
  | BusEvent.set_regs _ _ _ => true
  | _ => false

/-- Is the event a delay call? -/
def BusEvent.isDelay : BusEvent → Bool
  | BusEvent.delay_ms _ => true
  | _ => false

/-! ## Small transports used in the concrete instances -/

/-- A handle with all three callbacks present. -/
def dev0 (Cfg : Type) (c : Cfg) : lux_dev Cfg :=
  { chip_id := 0, dev_id := 0x29, read := some 1, write := some 2, delay_ms := some 3, conf := c }

/-- Every read succeeds and stores `bytes`; every write succeeds. -/
def busConst (bytes : List Nat) : Bus :=
  { get_regs := fun _ _ _ => (LUX_OK, bytes),
    set_regs := fun _ _ _ _ => LUX_OK }

/-- A scripted transport: the read made after `n` earlier reads is answered by
`reads n`, the write made after `n` earlier writes returns `writes n`. -/
def busScript (reads : Nat → Int × List Nat) (writes : Nat → Int) : Bus :=
  { get_regs := fun tr _ _ => reads (tr.countP BusEvent.isGet),
    set_regs := fun tr _ _ _ => writes (tr.countP BusEvent.isSet) }

/-! ## Auxiliary lemmas -/

section Lemmas

variable {Cfg : Type}

theorem null_ptr_check_of_valid (d : lux_dev Cfg) (hv : handle_valid d) :
    null_ptr_check (some d) = LUX_OK := by
  obtain ⟨h1, h2, h3⟩ := hv
  cases hr : d.read <;> cases hw : d.write <;> cases hd : d.delay_ms <;>
    simp_all [null_ptr_check]

theorem null_ptr_check_of_absent (dev : Option (lux_dev Cfg)) (ha : handle_absent dev) :
    null_ptr_check dev = LUX_E_NULL_PTR := by
  cases dev with
  | none => rfl
  | some d =>
    simp only [handle_absent] at ha
    rcases ha with h | h | h <;> simp [null_ptr_check, h]

theorem null_ptr_check_of_not_valid (d : lux_dev Cfg) (hv : ¬ handle_valid d) :
    null_ptr_check (some d) = LUX_E_NULL_PTR := by
  apply null_ptr_check_of_absent
  simp only [handle_valid, not_and_or, not_not] at hv
  exact hv

theorem LUX_E_NULL_PTR_ne_OK : LUX_E_NULL_PTR ≠ LUX_OK := by decide

theorem handle_valid_chip_id (d : lux_dev Cfg) (c : Nat) (hv : handle_valid d) :
    handle_valid { d with chip_id := c } := hv

theorem lux_soft_reset_of_valid (bus : Bus) (d : lux_dev Cfg) (tr : List BusEvent)
    (hv : handle_valid d) :
    lux_soft_reset bus (some d) tr =
      (bus.set_regs tr [LUX_CONTR_ADDR] [LUX_SOFT_RESET_CMD] 1,
       tr ++ [BusEvent.set_regs [LUX_CONTR_ADDR] [LUX_SOFT_RESET_CMD] 1, BusEvent.delay_ms 10]) := by
  simp [lux_soft_reset, null_ptr_check_of_valid d hv, lux_set_regs, delay_ms]

theorem lux_init_loop_succ (bus : Bus) (n : Nat) (rslt : Int) (d : lux_dev Cfg)
    (tr : List BusEvent) :
    lux_init_loop bus (n + 1) rslt d tr =
      if (bus.get_regs tr LUX_CHIP_ID_ADDR 1).1 = LUX_OK ∧
          chip_id_after d.chip_id (bus.get_regs tr LUX_CHIP_ID_ADDR 1) = LUX_CHIP_ID1 then
        (n + 1,
         (lux_soft_reset bus
            (some { d with chip_id := chip_id_after d.chip_id (bus.get_regs tr LUX_CHIP_ID_ADDR 1) })
            (tr ++ [BusEvent.get_regs LUX_CHIP_ID_ADDR 1])).1,
         { d with chip_id := chip_id_after d.chip_id (bus.get_regs tr LUX_CHIP_ID_ADDR 1) },
         (lux_soft_reset bus
            (some { d with chip_id := chip_id_after d.chip_id (bus.get_regs tr LUX_CHIP_ID_ADDR 1) })
            (tr ++ [BusEvent.get_regs LUX_CHIP_ID_ADDR 1])).2)
      else
        lux_init_loop bus n (bus.get_regs tr LUX_CHIP_ID_ADDR 1).1
          { d with chip_id := chip_id_after d.chip_id (bus.get_regs tr LUX_CHIP_ID_ADDR 1) }
          (tr ++ [BusEvent.get_regs LUX_CHIP_ID_ADDR 1, BusEvent.delay_ms 10]) := by
  simp [lux_init_loop, lux_get_regs, chip_id_after, delay_ms]

theorem chip_id_seen_shift (bus : Bus) (tr : List BusEvent) (c0 : Nat) (j : Nat) :
    chip_id_seen bus tr c0 (j + 1) =
      chip_id_seen bus (tr ++ [BusEvent.get_regs LUX_CHIP_ID_ADDR 1, BusEvent.delay_ms 10])
        (chip_id_after c0 (bus.get_regs tr LUX_CHIP_ID_ADDR 1)) j := by
  induction j with
  | zero => simp [chip_id_seen, failed_attempts]
  | succ j ih =>
    rw [chip_id_seen, ih]
    simp [chip_id_seen, failed_attempts]

theorem identified_shift (bus : Bus) (tr : List BusEvent) (c0 : Nat) (j : Nat) :
    identified bus tr c0 (j + 1) ↔
      identified bus (tr ++ [BusEvent.get_regs LUX_CHIP_ID_ADDR 1, BusEvent.delay_ms 10])
        (chip_id_after c0 (bus.get_regs tr LUX_CHIP_ID_ADDR 1)) j := by
  unfold identified
  rw [chip_id_seen_shift bus tr c0 (j + 1)]
  simp [failed_attempts]

theorem identified_zero (bus : Bus) (tr : List BusEvent) (c0 : Nat) :
    identified bus tr c0 0 ↔
      ((bus.get_regs tr LUX_CHIP_ID_ADDR 1).1 = LUX_OK ∧
        chip_id_after c0 (bus.get_regs tr LUX_CHIP_ID_ADDR 1) = LUX_CHIP_ID1) := by
  simp [identified, chip_id_seen, failed_attempts]

/-- The loop of `lux_init` when none of the next `n` reads identifies the chip. -/
theorem lux_init_loop_fail (bus : Bus) (n : Nat) :
    ∀ (rslt : Int) (d : lux_dev Cfg) (tr : List BusEvent),
      (∀ j, j < n → ¬ identified bus tr d.chip_id j) →
      (lux_init_loop bus n rslt d tr).1 = 0 ∧
      (lux_init_loop bus n rslt d tr).2.2.1 =
        { d with chip_id := chip_id_seen bus tr d.chip_id n } ∧
      (lux_init_loop bus n rslt d tr).2.2.2 = tr ++ failed_attempts n := by
  induction n with
  | zero => intro rslt d tr _; simp [lux_init_loop, chip_id_seen, failed_attempts]
  | succ n ih =>
    intro rslt d tr h
    have h0 := h 0 (Nat.succ_pos n)
    rw [identified_zero] at h0
    rw [lux_init_loop_succ, if_neg h0]
    have hrest : ∀ j, j < n → ¬ identified bus
        (tr ++ [BusEvent.get_regs LUX_CHIP_ID_ADDR 1, BusEvent.delay_ms 10])
        (chip_id_after d.chip_id (bus.get_regs tr LUX_CHIP_ID_ADDR 1)) j := by
      intro j hj hid
      exact h (j + 1) (Nat.succ_lt_succ hj) ((identified_shift bus tr d.chip_id j).2 hid)
    obtain ⟨e1, e2, e3⟩ := ih (bus.get_regs tr LUX_CHIP_ID_ADDR 1).1
      { d with chip_id := chip_id_after d.chip_id (bus.get_regs tr LUX_CHIP_ID_ADDR 1) }
      (tr ++ [BusEvent.get_regs LUX_CHIP_ID_ADDR 1, BusEvent.delay_ms 10]) hrest
    refine ⟨e1, ?_, ?_⟩
    · rw [e2, chip_id_seen_shift]
    · rw [e3]; simp [failed_attempts]

/-- The loop of `lux_init` when read number `m + 1` is the first to identify
the chip: the loop is left by the break with `try_count` still positive. -/
theorem lux_init_loop_hit (bus : Bus) (m : Nat) :
    ∀ (n : Nat) (rslt : Int) (d : lux_dev Cfg) (tr : List BusEvent),
      handle_valid d →
      (∀ j, j < m → ¬ identified bus tr d.chip_id j) →
      identified bus tr d.chip_id m →
      lux_init_loop bus (m + 1 + n) rslt d tr =
        (n + 1,
         bus.set_regs (tr ++ failed_attempts m ++ [BusEvent.get_regs LUX_CHIP_ID_ADDR 1])
           [LUX_CONTR_ADDR] [LUX_SOFT_RESET_CMD] 1,
         { d with chip_id := LUX_CHIP_ID1 },
         tr ++ failed_attempts m ++
           [BusEvent.get_regs LUX_CHIP_ID_ADDR 1,
            BusEvent.set_regs [LUX_CONTR_ADDR] [LUX_SOFT_RESET_CMD] 1,
            BusEvent.delay_ms 10]) := by
  induction m with
  | zero =>
    intro n rslt d tr hv _ hhit
    rw [identified_zero] at hhit
    have e : 0 + 1 + n = n + 1 := by omega
    rw [e, lux_init_loop_succ, if_pos hhit, hhit.2,
      lux_soft_reset_of_valid bus _ _ (handle_valid_chip_id d LUX_CHIP_ID1 hv)]
    simp [failed_attempts]
  | succ m ih =>
    intro n rslt d tr hv hfail hhit
    have h0 := hfail 0 (Nat.succ_pos m)
    rw [identified_zero] at h0
    have e : m + 1 + 1 + n = (m + 1 + n) + 1 := by omega
    rw [e, lux_init_loop_succ, if_neg h0]
    have hrest : ∀ j, j < m → ¬ identified bus
        (tr ++ [BusEvent.get_regs LUX_CHIP_ID_ADDR 1, BusEvent.delay_ms 10])
        (chip_id_after d.chip_id (bus.get_regs tr LUX_CHIP_ID_ADDR 1)) j := by
      intro j hj hid
      exact hfail (j + 1) (Nat.succ_lt_succ hj) ((identified_shift bus tr d.chip_id j).2 hid)
    rw [ih n (bus.get_regs tr LUX_CHIP_ID_ADDR 1).1
      { d with chip_id := chip_id_after d.chip_id (bus.get_regs tr LUX_CHIP_ID_ADDR 1) }
      (tr ++ [BusEvent.get_regs LUX_CHIP_ID_ADDR 1, BusEvent.delay_ms 10])
      (handle_valid_chip_id d _ hv) hrest ((identified_shift bus tr d.chip_id m).1 hhit)]
    simp [failed_attempts]

end Lemmas

section ConfLemmas

variable {Cfg : Type}

theorem store_bytes_length (buf bytes : List Nat) (len : Nat) :
    (store_bytes buf bytes len).length = buf.length := by
  simp only [store_bytes, List.length_append, List.length_map, List.length_take,
    List.length_drop]
  omega

theorem conf_temp_length (bus : Bus) (tr : List BusEvent) : (conf_temp bus tr).length = 2 := by
  simp [conf_temp, store_bytes_length]

/-- The body of `conf_sensor` on a valid handle and a non-null configuration,
with the calls of the register primitives spelled out. -/
theorem conf_sensor_of_valid (bus : Bus) (mode : Nat) (c : Cfg) (d : lux_dev Cfg)
    (tr : List BusEvent) (hv : handle_valid d) :
    conf_sensor bus mode (some c) (some d) tr =
      if (bus.get_regs tr 0x85 2).1 = LUX_OK then
        if bus.set_regs (tr ++ [BusEvent.get_regs 0x85 2]) [0x80] [0x03] 1 = LUX_OK then
          if bus.set_regs
              (tr ++ [BusEvent.get_regs 0x85 2, BusEvent.set_regs [0x80] [0x03] 1,
                BusEvent.delay_ms 10])
              [0x85, 0x00] (conf_temp bus tr) 2 = LUX_OK then
            if mode ≠ LUX_SLEEP_MODE then
              ⟨bus.set_regs
                 (tr ++ [BusEvent.get_regs 0x85 2, BusEvent.set_regs [0x80] [0x03] 1,
                   BusEvent.delay_ms 10, BusEvent.set_regs [0x85, 0x00] (conf_temp bus tr) 2])
                 [0x85] ((conf_temp bus tr).take 1) 1,
               some { d with conf := c },
               tr ++ [BusEvent.get_regs 0x85 2, BusEvent.set_regs [0x80] [0x03] 1,
                 BusEvent.delay_ms 10, BusEvent.set_regs [0x85, 0x00] (conf_temp bus tr) 2,
                 BusEvent.set_regs [0x85] ((conf_temp bus tr).take 1) 1]⟩
            else
              ⟨LUX_OK, some { d with conf := c },
               tr ++ [BusEvent.get_regs 0x85 2, BusEvent.set_regs [0x80] [0x03] 1,
                 BusEvent.delay_ms 10, BusEvent.set_regs [0x85, 0x00] (conf_temp bus tr) 2]⟩
          else
            ⟨bus.set_regs
               (tr ++ [BusEvent.get_regs 0x85 2, BusEvent.set_regs [0x80] [0x03] 1,
                 BusEvent.delay_ms 10])
               [0x85, 0x00] (conf_temp bus tr) 2,
             some d,
             tr ++ [BusEvent.get_regs 0x85 2, BusEvent.set_regs [0x80] [0x03] 1,
               BusEvent.delay_ms 10, BusEvent.set_regs [0x85, 0x00] (conf_temp bus tr) 2]⟩
        else
          ⟨bus.set_regs (tr ++ [BusEvent.get_regs 0x85 2]) [0x80] [0x03] 1, some d,
           tr ++ [BusEvent.get_regs 0x85 2, BusEvent.set_regs [0x80] [0x03] 1,
             BusEvent.delay_ms 10]⟩
      else
        ⟨(bus.get_regs tr 0x85 2).1, some d, tr ++ [BusEvent.get_regs 0x85 2]⟩ := by
  have ht : List.take 2 (conf_temp bus tr) = conf_temp bus tr :=
    List.take_of_length_le (by rw [conf_temp_length])
  simp only [conf_sensor, null_ptr_check_of_valid d hv, lux_get_regs,
    lux_soft_reset_of_valid bus d _ hv, lux_set_regs, if_true]
  simp only [LUX_CTRL_MEAS_ADDR, LUX_CONFIG_ADDR, LUX_CONTR_ADDR, LUX_SOFT_RESET_CMD,
    conf_temp] at ht ⊢
  simp only [ht, List.append_assoc, List.take, List.cons_append, List.nil_append]
  split_ifs <;> simp_all

/-- Any two values of the header's `struct lux_config`, which has no member,
are equal. -/
theorem lux_config_eq (a b : lux_config) : a = b := by
  cases a; cases b; rfl

/-- At the header's `struct lux_config` the copy `dev->conf = *conf` leaves the
device structure as it was. -/
theorem lux_dev_copy_conf (d : lux_dev lux_config) (c : lux_config) :
    { d with conf := c } = d := by
  rw [lux_config_eq c d.conf]

/-- For every payload type, a `conf_sensor` in Sleep mode that does not return
`LUX_OK` hands the device structure back as it was: in Sleep mode the copy
`dev->conf = *conf` is the last step, after the last call that can fail. -/
theorem conf_sensor_sleep_failure (bus : Bus) (conf : Option Cfg) (dev : Option (lux_dev Cfg))
    (tr : List BusEvent)
    (hfail : (conf_sensor bus LUX_SLEEP_MODE conf dev tr).rslt ≠ LUX_OK) :
    (conf_sensor bus LUX_SLEEP_MODE conf dev tr).val = dev := by
  cases dev with
  | none => cases conf <;> rfl
  | some d =>
    cases conf with
    | none => rfl
    | some c =>
      by_cases hv : handle_valid d
      · rw [conf_sensor_of_valid bus LUX_SLEEP_MODE c d tr hv] at hfail ⊢
        split_ifs at hfail ⊢ <;> simp_all
      · simp [conf_sensor, null_ptr_check_of_not_valid d hv, LUX_E_NULL_PTR_ne_OK]

/-- For every payload type and every mode, `conf_sensor` run on the handle's
own cached configuration hands the device structure back as it was. -/
theorem conf_sensor_own_conf (bus : Bus) (mode : Nat) (d : lux_dev Cfg) (tr : List BusEvent) :
    (conf_sensor bus mode (some d.conf) (some d) tr).val = some d := by
  by_cases hv : handle_valid d
  · rw [conf_sensor_of_valid bus mode d.conf d tr hv]
    split_ifs <;> rfl
  · simp [conf_sensor, null_ptr_check_of_not_valid d hv, LUX_E_NULL_PTR_ne_OK]

/-- The body of `lux_set_power_mode` on a handle that is there. -/
theorem lux_set_power_mode_some (bus : Bus) (mode : Nat) (d : lux_dev Cfg)
    (tr : List BusEvent) :
    lux_set_power_mode bus mode (some d) tr = conf_sensor bus mode (some d.conf) (some d) tr := by
  by_cases hv : handle_valid d
  · simp [lux_set_power_mode, null_ptr_check_of_valid d hv]
  · simp [lux_set_power_mode, conf_sensor, null_ptr_check_of_not_valid d hv,
      LUX_E_NULL_PTR_ne_OK]

/-- For every payload type: a `conf_sensor` that does not return `LUX_OK`
either hands the device structure back as it was, or has failed in its last
step, the 1-byte power-mode write of a mode other than Sleep, after the copy
`dev->conf = *conf`. -/
theorem conf_sensor_failure_cases (bus : Bus) (mode : Nat) (conf : Option Cfg)
    (dev : Option (lux_dev Cfg)) (tr : List BusEvent)
    (hfail : (conf_sensor bus mode conf dev tr).rslt ≠ LUX_OK) :
    (conf_sensor bus mode conf dev tr).val = dev ∨
    (mode ≠ LUX_SLEEP_MODE ∧ ∃ c d, conf = some c ∧ dev = some d ∧
      (conf_sensor bus mode conf dev tr).val = some { d with conf := c }) := by
  cases dev with
  | none => left; cases conf <;> rfl
  | some d =>
    cases conf with
    | none => left; rfl
    | some c =>
      by_cases hv : handle_valid d
      · rw [conf_sensor_of_valid bus mode c d tr hv] at hfail ⊢
        split_ifs at hfail ⊢ with h1 h2 h3 h4
        · exact Or.inr ⟨h4, c, d, rfl, rfl, rfl⟩
        · exact absurd rfl hfail
        · exact Or.inl rfl
        · exact Or.inl rfl
        · exact Or.inl rfl
      · left
        simp [conf_sensor, null_ptr_check_of_not_valid d hv, LUX_E_NULL_PTR_ne_OK]

end ConfLemmas

/-! ## Counting the events of failed attempts -/

theorem failed_attempts_countP_isGet (m : Nat) :
    (failed_attempts m).countP BusEvent.isGet = m := by
  induction m with
  | zero => rfl
  | succ m ih => simp [failed_attempts, BusEvent.isGet, ih]

theorem failed_attempts_countP_isDelay (m : Nat) :
    (failed_attempts m).countP BusEvent.isDelay = m := by
  induction m with
  | zero => rfl
  | succ m ih => simp [failed_attempts, BusEvent.isDelay, ih]

theorem failed_attempts_countP_isSet (m : Nat) :
    (failed_attempts m).countP BusEvent.isSet = 0 := by
  induction m with
  | zero => rfl
  | succ m ih => simp [failed_attempts, BusEvent.isSet, ih]

/-! ## C1: identification never succeeds -/

section Claims

variable {Cfg : Type}

/-- C1: on a valid handle, when none of the five chip-id reads both succeeds and
leaves `0xA0` in `dev->chip_id`, `lux_init` makes exactly five one-byte reads of
register `0x86`, each followed by a 10 ms delay call (so a delay stands between
any two consecutive reads), makes no register write, and returns
`LUX_E_DEV_NOT_FOUND` (-2). -/
theorem lux_init_never_identified (bus : Bus) (d : lux_dev Cfg) (tr : List BusEvent)
    (hv : handle_valid d) (hno : ∀ j, j < 5 → ¬ identified bus tr d.chip_id j) :
    (lux_init bus (some d) tr).rslt = LUX_E_DEV_NOT_FOUND ∧
    LUX_E_DEV_NOT_FOUND = -2 ∧
    (lux_init bus (some d) tr).trace =
      tr ++ [BusEvent.get_regs 0x86 1, BusEvent.delay_ms 10,
             BusEvent.get_regs 0x86 1, BusEvent.delay_ms 10,
             BusEvent.get_regs 0x86 1, BusEvent.delay_ms 10,
             BusEvent.get_regs 0x86 1, BusEvent.delay_ms 10,
             BusEvent.get_regs 0x86 1, BusEvent.delay_ms 10] ∧
    ((lux_init bus (some d) tr).trace.drop tr.length).countP BusEvent.isGet = 5 ∧
    ((lux_init bus (some d) tr).trace.drop tr.length).countP BusEvent.isSet = 0 := by
  obtain ⟨e1, _, e3⟩ := lux_init_loop_fail bus 5 LUX_OK d tr hno
  have ht : (lux_init bus (some d) tr).trace = tr ++ failed_attempts 5 := by
    simp [lux_init, null_ptr_check_of_valid d hv, e3]
  refine ⟨?_, rfl, ?_, ?_, ?_⟩
  · simp [lux_init, null_ptr_check_of_valid d hv, e1]
  · rw [ht]; rfl
  · rw [ht, List.drop_left, failed_attempts_countP_isGet]
  · rw [ht, List.drop_left, failed_attempts_countP_isSet]

/-- C1, instance: every read succeeds with the byte `0x55`. -/
theorem lux_init_never_identified_witness :
    handle_valid (dev0 lux_config {}) ∧
    (∀ j, j < 5 → ¬ identified (busConst [0x55]) [] (dev0 lux_config {}).chip_id j) ∧
    (lux_init (busConst [0x55]) (some (dev0 lux_config {})) []).rslt = LUX_E_DEV_NOT_FOUND ∧
    LUX_E_DEV_NOT_FOUND = -2 ∧
    (lux_init (busConst [0x55]) (some (dev0 lux_config {})) []).trace =
      [] ++ [BusEvent.get_regs 0x86 1, BusEvent.delay_ms 10,
             BusEvent.get_regs 0x86 1, BusEvent.delay_ms 10,
             BusEvent.get_regs 0x86 1, BusEvent.delay_ms 10,
             BusEvent.get_regs 0x86 1, BusEvent.delay_ms 10,
             BusEvent.get_regs 0x86 1, BusEvent.delay_ms 10] ∧
    ((lux_init (busConst [0x55]) (some (dev0 lux_config {})) []).trace.drop
        ([] : List BusEvent).length).countP BusEvent.isGet = 5 ∧
    ((lux_init (busConst [0x55]) (some (dev0 lux_config {})) []).trace.drop
        ([] : List BusEvent).length).countP BusEvent.isSet = 0 :=
  ⟨by decide, by decide,
   lux_init_never_identified (busConst [0x55]) (dev0 lux_config {}) [] (by decide) (by decide)⟩

/-! ## C2: identification succeeds at the k-th read -/

/-- C2: on a valid handle, for `1 ≤ k ≤ 5`, when the `k`-th chip-id read is the
first that succeeds and leaves `0xA0` in `dev->chip_id`, `lux_init` makes `k - 1`
failed attempts (a one-byte read of `0x86` and a 10 ms delay each), the `k`-th
read, then one soft reset (one write of `0x03` to `0x80` and one 10 ms delay)
and nothing more: `k` reads and one write in all.  It returns the result of the
reset write, hence `LUX_OK` when that write succeeds. -/
theorem lux_init_identified_at (bus : Bus) (d : lux_dev Cfg) (tr : List BusEvent) (k : Nat)
    (hv : handle_valid d) (hk1 : 1 ≤ k) (hk5 : k ≤ 5)
    (hfail : ∀ j, j < k - 1 → ¬ identified bus tr d.chip_id j)
    (hhit : identified bus tr d.chip_id (k - 1)) :
    (lux_init bus (some d) tr).trace =
      tr ++ failed_attempts (k - 1) ++
        [BusEvent.get_regs 0x86 1, BusEvent.set_regs [0x80] [0x03] 1, BusEvent.delay_ms 10] ∧
    ((lux_init bus (some d) tr).trace.drop tr.length).countP BusEvent.isGet = k ∧
    ((lux_init bus (some d) tr).trace.drop tr.length).countP BusEvent.isSet = 1 ∧
    ((lux_init bus (some d) tr).trace.drop tr.length).countP BusEvent.isDelay = k ∧
    (lux_init bus (some d) tr).rslt =
      bus.set_regs (tr ++ failed_attempts (k - 1) ++ [BusEvent.get_regs 0x86 1]) [0x80] [0x03] 1 ∧
    (bus.set_regs (tr ++ failed_attempts (k - 1) ++ [BusEvent.get_regs 0x86 1]) [0x80] [0x03] 1
        = LUX_OK → (lux_init bus (some d) tr).rslt = LUX_OK) := by
  obtain ⟨m, rfl⟩ : ∃ m, k = m + 1 := ⟨k - 1, by omega⟩
  obtain ⟨n, hn⟩ : ∃ n, 5 = m + 1 + n := ⟨5 - (m + 1), by omega⟩
  simp only [Nat.add_sub_cancel] at hfail hhit
  have hl := lux_init_loop_hit bus m n LUX_OK d tr hv hfail hhit
  rw [← hn] at hl
  have ht : (lux_init bus (some d) tr).trace =
      tr ++ (failed_attempts m ++
        [BusEvent.get_regs 0x86 1, BusEvent.set_regs [0x80] [0x03] 1, BusEvent.delay_ms 10]) := by
    simp [lux_init, null_ptr_check_of_valid d hv, hl, LUX_CHIP_ID_ADDR, LUX_CONTR_ADDR,
      LUX_SOFT_RESET_CMD]
  have hr : (lux_init bus (some d) tr).rslt =
      bus.set_regs (tr ++ failed_attempts m ++ [BusEvent.get_regs 0x86 1]) [0x80] [0x03] 1 := by
    simp [lux_init, null_ptr_check_of_valid d hv, hl, LUX_CHIP_ID_ADDR, LUX_CONTR_ADDR,
      LUX_SOFT_RESET_CMD]
  simp only [Nat.add_sub_cancel]
  refine ⟨?_, ?_, ?_, ?_, hr, fun h => hr.trans h⟩
  · rw [ht, List.append_assoc]
  · rw [ht, List.drop_left, List.countP_append, failed_attempts_countP_isGet]; rfl
  · rw [ht, List.drop_left, List.countP_append, failed_attempts_countP_isSet]; rfl
  · rw [ht, List.drop_left, List.countP_append, failed_attempts_countP_isDelay]; rfl

/-- C2, instance: the first two reads deliver `0x55`, the third delivers `0xA0`
and the reset write succeeds (`k = 3`). -/
theorem lux_init_identified_at_witness :
    (lux_init (busScript (fun n => if n < 2 then (LUX_OK, [0x55]) else (LUX_OK, [0xA0]))
        (fun _ => LUX_OK)) (some (dev0 lux_config {})) []).trace =
      [BusEvent.get_regs 0x86 1, BusEvent.delay_ms 10,
       BusEvent.get_regs 0x86 1, BusEvent.delay_ms 10,
       BusEvent.get_regs 0x86 1, BusEvent.set_regs [0x80] [0x03] 1, BusEvent.delay_ms 10] ∧
    (lux_init (busScript (fun n => if n < 2 then (LUX_OK, [0x55]) else (LUX_OK, [0xA0]))
        (fun _ => LUX_OK)) (some (dev0 lux_config {})) []).rslt = LUX_OK :=
  have h := lux_init_identified_at
    (busScript (fun n => if n < 2 then (LUX_OK, [0x55]) else (LUX_OK, [0xA0])) (fun _ => LUX_OK))
    (dev0 lux_config {}) [] 3 (by decide) (by decide) (by decide) (by decide) (by decide)
  ⟨h.1, h.2.2.2.2.2 (by decide)⟩

/-! ## C3: soft reset -/

/-- C3: on a valid handle, whatever the write returns, `lux_soft_reset` makes
exactly one register write of the single byte `0x03` to address `0x80`, then
exactly one delay call of 10 ms, and nothing else, and it returns the result
code of the write unchanged. -/
theorem lux_soft_reset_valid (bus : Bus) (d : lux_dev Cfg) (tr : List BusEvent)
    (hv : handle_valid d) :
    (lux_soft_reset bus (some d) tr).2 =
      tr ++ [BusEvent.set_regs [0x80] [0x03] 1, BusEvent.delay_ms 10] ∧
    (lux_soft_reset bus (some d) tr).1 = bus.set_regs tr [0x80] [0x03] 1 := by
  rw [lux_soft_reset_of_valid bus d tr hv]
  exact ⟨rfl, rfl⟩

/-- C3, instance: the write fails with `LUX_E_COMM_FAIL`; the delay is still
made and the code comes back as it is. -/
theorem lux_soft_reset_valid_witness :
    handle_valid (dev0 lux_config {}) ∧
    (lux_soft_reset (busScript (fun _ => (LUX_OK, [])) (fun _ => LUX_E_COMM_FAIL))
        (some (dev0 lux_config {})) []).2 =
      [] ++ [BusEvent.set_regs [0x80] [0x03] 1, BusEvent.delay_ms 10] ∧
    (lux_soft_reset (busScript (fun _ => (LUX_OK, [])) (fun _ => LUX_E_COMM_FAIL))
        (some (dev0 lux_config {})) []).1 =
      (busScript (fun _ => (LUX_OK, [])) (fun _ => LUX_E_COMM_FAIL)).set_regs [] [0x80] [0x03] 1 :=
  ⟨by decide,
   lux_soft_reset_valid (busScript (fun _ => (LUX_OK, [])) (fun _ => LUX_E_COMM_FAIL))
     (dev0 lux_config {}) [] (by decide)⟩

end Claims

/-! ## C4, C5: the configuration protocol on a transport that always succeeds -/

section ConfClaims

variable {Cfg : Type}

/-- C4: on a valid handle, with a non-null configuration, a mode other than
`LUX_SLEEP_MODE` and a transport on which every read and write succeeds,
`conf_sensor` makes, in this order and nothing else: a 2-byte read at `0x85`, a
soft reset (1-byte write of `0x03` to `0x80`, then a 10 ms delay), a 2-byte
write and a further 1-byte write, that is four bus transactions; it returns
`LUX_OK` with the desired configuration cached.  The cache is assigned only
after the 2-byte write has succeeded: on any transport, a device structure that
differs after the call means that this write was made and returned `LUX_OK`. -/
theorem conf_sensor_active_mode (bus : Bus) (mode : Nat) (c : Cfg) (d : lux_dev Cfg)
    (tr : List BusEvent) (hv : handle_valid d) (hm : mode ≠ LUX_SLEEP_MODE)
    (hok : bus_all_ok bus) :
    (conf_sensor bus mode (some c) (some d) tr).trace =
      tr ++ [BusEvent.get_regs 0x85 2, BusEvent.set_regs [0x80] [0x03] 1, BusEvent.delay_ms 10,
        BusEvent.set_regs [0x85, 0x00] (conf_temp bus tr) 2,
        BusEvent.set_regs [0x85] ((conf_temp bus tr).take 1) 1] ∧
    ((conf_sensor bus mode (some c) (some d) tr).trace.drop tr.length).countP
      (fun e => e.isGet || e.isSet) = 4 ∧
    (conf_sensor bus mode (some c) (some d) tr).rslt = LUX_OK ∧
    (conf_sensor bus mode (some c) (some d) tr).val = some { d with conf := c } ∧
    (∀ bus2 : Bus, (conf_sensor bus2 mode (some c) (some d) tr).val ≠ some d →
      BusEvent.set_regs [0x85, 0x00] (conf_temp bus2 tr) 2 ∈
        (conf_sensor bus2 mode (some c) (some d) tr).trace.drop tr.length ∧
      bus2.set_regs
        (tr ++ [BusEvent.get_regs 0x85 2, BusEvent.set_regs [0x80] [0x03] 1,
          BusEvent.delay_ms 10])
        [0x85, 0x00] (conf_temp bus2 tr) 2 = LUX_OK) := by
  have hE : conf_sensor bus mode (some c) (some d) tr =
      ⟨LUX_OK, some { d with conf := c },
       tr ++ [BusEvent.get_regs 0x85 2, BusEvent.set_regs [0x80] [0x03] 1, BusEvent.delay_ms 10,
        BusEvent.set_regs [0x85, 0x00] (conf_temp bus tr) 2,
        BusEvent.set_regs [0x85] ((conf_temp bus tr).take 1) 1]⟩ := by
    rw [conf_sensor_of_valid bus mode c d tr hv]
    simp [hok.1, hok.2, hm]
  refine ⟨by rw [hE], ?_, by rw [hE], by rw [hE], ?_⟩
  · rw [hE]; simp only [List.drop_left]; rfl
  · intro bus2 hne
    rw [conf_sensor_of_valid bus2 mode c d tr hv] at hne ⊢
    split_ifs at hne ⊢ <;> simp_all

/-- C4, instance: mode 1 on a transport that always succeeds and reads back
`0x12, 0x34`. -/
theorem conf_sensor_active_mode_witness :
    (conf_sensor (busConst [0x12, 0x34]) 1 (some 9) (some (dev0 Nat 7)) []).trace =
      [BusEvent.get_regs 0x85 2, BusEvent.set_regs [0x80] [0x03] 1, BusEvent.delay_ms 10,
        BusEvent.set_regs [0x85, 0x00] [0x12, 0x34] 2, BusEvent.set_regs [0x85] [0x12] 1] ∧
    (conf_sensor (busConst [0x12, 0x34]) 1 (some 9) (some (dev0 Nat 7)) []).rslt = LUX_OK ∧
    (conf_sensor (busConst [0x12, 0x34]) 1 (some 9) (some (dev0 Nat 7)) []).val =
      some { dev0 Nat 7 with conf := 9 } :=
  have h := conf_sensor_active_mode (busConst [0x12, 0x34]) 1 (9 : Nat) (dev0 Nat 7) []
    (by decide) (by decide) ⟨fun _ _ _ => rfl, fun _ _ _ _ => rfl⟩
  ⟨h.1, h.2.2.1, h.2.2.2.1⟩

/-- C5: on a valid handle, with a non-null configuration and a transport on
which every read and write succeeds, `lux_set_config` makes exactly a 2-byte
read at `0x85`, a soft reset (1-byte write of `0x03` to `0x80`, then a 10 ms
delay) and a 2-byte write, and no 1-byte power-mode write; it returns `LUX_OK`
and the cached configuration is then the desired one. -/
theorem lux_set_config_all_ok (bus : Bus) (c : Cfg) (d : lux_dev Cfg) (tr : List BusEvent)
    (hv : handle_valid d) (hok : bus_all_ok bus) :
    (lux_set_config bus (some c) (some d) tr).trace =
      tr ++ [BusEvent.get_regs 0x85 2, BusEvent.set_regs [0x80] [0x03] 1, BusEvent.delay_ms 10,
        BusEvent.set_regs [0x85, 0x00] (conf_temp bus tr) 2] ∧
    (lux_set_config bus (some c) (some d) tr).rslt = LUX_OK ∧
    (lux_set_config bus (some c) (some d) tr).val = some { d with conf := c } ∧
    (lux_set_config bus (some c) (some d) tr).val.map (fun x => x.conf) = some c := by
  have hE : lux_set_config bus (some c) (some d) tr =
      ⟨LUX_OK, some { d with conf := c },
       tr ++ [BusEvent.get_regs 0x85 2, BusEvent.set_regs [0x80] [0x03] 1, BusEvent.delay_ms 10,
        BusEvent.set_regs [0x85, 0x00] (conf_temp bus tr) 2]⟩ := by
    rw [lux_set_config, conf_sensor_of_valid bus LUX_SLEEP_MODE c d tr hv]
    simp [hok.1, hok.2]
  rw [hE]
  exact ⟨rfl, rfl, rfl, rfl⟩

/-- C5, instance: a transport that always succeeds and reads back `0x12, 0x34`. -/
theorem lux_set_config_all_ok_witness :
    (lux_set_config (busConst [0x12, 0x34]) (some 9) (some (dev0 Nat 7)) []).trace =
      [BusEvent.get_regs 0x85 2, BusEvent.set_regs [0x80] [0x03] 1, BusEvent.delay_ms 10,
        BusEvent.set_regs [0x85, 0x00] [0x12, 0x34] 2] ∧
    (lux_set_config (busConst [0x12, 0x34]) (some 9) (some (dev0 Nat 7)) []).rslt = LUX_OK ∧
    (lux_set_config (busConst [0x12, 0x34]) (some 9) (some (dev0 Nat 7)) []).val.map
      (fun x => x.conf) = some 9 :=
  have h := lux_set_config_all_ok (busConst [0x12, 0x34]) (9 : Nat) (dev0 Nat 7) []
    (by decide) ⟨fun _ _ _ => rfl, fun _ _ _ _ => rfl⟩
  ⟨h.1, h.2.1, h.2.2.2⟩

end ConfClaims

/-! ## C6: decoding of the raw channel data -/

section ReadoutClaims

variable {Cfg : Type}

theorem le16_assemble (lo hi : Nat) (hlo : lo < 256) (hhi : hi < 256) :
    ((lo % 65536) ||| ((hi % 65536) <<< 8)) % 65536 = lo + 256 * hi := by
  have e1 : lo % 65536 = lo := Nat.mod_eq_of_lt (by omega)
  have e2 : hi % 65536 = hi := Nat.mod_eq_of_lt (by omega)
  have e3 : hi <<< 8 = 2 ^ 8 * hi := by rw [Nat.shiftLeft_eq, Nat.mul_comm]
  have hlo2 : lo < 2 ^ 8 := by omega
  rw [e1, e2, e3, Nat.lor_comm, ← Nat.mul_add_lt_is_or hlo2 hi]
  omega

/-- C6: on a valid handle with a non-null output, when the 4-byte read at
register `0x88` succeeds and delivers the bytes `b0, b1, b2, b3`,
`lux_get_uncomp_data` makes that one read, returns `LUX_OK` and stores
`uncomp_ch1 = b0 + 256 * b1` and `uncomp_ch0 = b2 + 256 * b3`, both at most
65535; the bytes `0x34, 0x12, 0x78, 0x56` give `0x1234` and `0x5678`. -/
theorem lux_get_uncomp_data_decode (bus : Bus) (u : lux_uncomp_data) (d : lux_dev Cfg)
    (tr : List BusEvent) (b0 b1 b2 b3 : Nat) (hv : handle_valid d)
    (h0 : b0 < 256) (h1 : b1 < 256) (h2 : b2 < 256) (h3 : b3 < 256)
    (hread : bus.get_regs tr 0x88 4 = (LUX_OK, [b0, b1, b2, b3])) :
    lux_get_uncomp_data bus (some u) (some d) tr =
      ⟨LUX_OK, some { uncomp_ch1 := b0 + 256 * b1, uncomp_ch0 := b2 + 256 * b3 },
       tr ++ [BusEvent.get_regs 0x88 4]⟩ ∧
    b0 + 256 * b1 ≤ 65535 ∧ b2 + 256 * b3 ≤ 65535 ∧
    (b0 = 0x34 → b1 = 0x12 → b2 = 0x78 → b3 = 0x56 →
      (lux_get_uncomp_data bus (some u) (some d) tr).val =
        some { uncomp_ch1 := 0x1234, uncomp_ch0 := 0x5678 }) := by
  have hst : store_bytes [0, 0, 0, 0, 0, 0] [b0, b1, b2, b3] 4 = [b0, b1, b2, b3, 0, 0] := by
    simp [store_bytes, Nat.mod_eq_of_lt h0, Nat.mod_eq_of_lt h1, Nat.mod_eq_of_lt h2,
      Nat.mod_eq_of_lt h3]
  have hE : lux_get_uncomp_data bus (some u) (some d) tr =
      ⟨LUX_OK, some { uncomp_ch1 := b0 + 256 * b1, uncomp_ch0 := b2 + 256 * b3 },
       tr ++ [BusEvent.get_regs 0x88 4]⟩ := by
    simp only [lux_get_uncomp_data, null_ptr_check_of_valid d hv, lux_get_regs,
      LUX_DATA_CH1_0_ADDR, hread, hst, if_true]
    simp [le16_assemble b0 b1 h0 h1, le16_assemble b2 b3 h2 h3]
  refine ⟨hE, by omega, by omega, ?_⟩
  intro e0 e1 e2 e3
  rw [hE, e0, e1, e2, e3]

/-- C6, instance: the bytes `0x34, 0x12, 0x78, 0x56`. -/
theorem lux_get_uncomp_data_decode_witness :
    lux_get_uncomp_data (busConst [0x34, 0x12, 0x78, 0x56]) (some ⟨0, 0⟩)
        (some (dev0 lux_config {})) [] =
      ⟨LUX_OK, some { uncomp_ch1 := 0x1234, uncomp_ch0 := 0x5678 },
       [BusEvent.get_regs 0x88 4]⟩ :=
  (lux_get_uncomp_data_decode (busConst [0x34, 0x12, 0x78, 0x56]) ⟨0, 0⟩ (dev0 lux_config {}) []
    0x34 0x12 0x78 0x56 (by decide) (by decide) (by decide) (by decide) (by decide) rfl).1

/-! ## C7: absent handle or absent callback -/

/-- C7: every public operation called on a handle that is absent, or whose
read, write or delay callback is absent, returns `LUX_E_NULL_PTR` (-1), makes no
register read, no register write and no delay call (the trace is the one it
started with), and leaves what its pointers refer to as it was. -/
theorem null_handle_no_transaction (bus : Bus) (dev : Option (lux_dev Cfg))
    (tr : List BusEvent) (conf : Option Cfg) (status : Option lux_status) (pmode : Option Nat)
    (mode : Nat) (u : Option lux_uncomp_data) (ha : handle_absent dev) :
    LUX_E_NULL_PTR = -1 ∧
    lux_soft_reset bus dev tr = (LUX_E_NULL_PTR, tr) ∧
    lux_init bus dev tr = ⟨LUX_E_NULL_PTR, dev, tr⟩ ∧
    lux_get_config bus conf dev tr = ⟨LUX_E_NULL_PTR, dev, tr⟩ ∧
    lux_set_config bus conf dev tr = ⟨LUX_E_NULL_PTR, dev, tr⟩ ∧
    lux_get_status bus status dev tr = ⟨LUX_E_NULL_PTR, status, tr⟩ ∧
    lux_get_power_mode bus pmode dev tr = ⟨LUX_E_NULL_PTR, pmode, tr⟩ ∧
    lux_set_power_mode bus mode dev tr = ⟨LUX_E_NULL_PTR, dev, tr⟩ ∧
    lux_get_uncomp_data bus u dev tr = ⟨LUX_E_NULL_PTR, u, tr⟩ := by
  have hn := null_ptr_check_of_absent dev ha
  have hne := LUX_E_NULL_PTR_ne_OK
  refine ⟨rfl, ?_, ?_, ?_, ?_, ?_, ?_, ?_, ?_⟩
  · simp [lux_soft_reset, hn, hne]
  · cases dev <;> simp_all [lux_init]
  · cases dev <;> cases conf <;> simp_all [lux_get_config]
  · cases dev <;> cases conf <;> simp_all [lux_set_config, conf_sensor]
  · simp [lux_get_status, hn, hne]
  · simp [lux_get_power_mode, hn, hne]
  · cases dev <;> simp_all [lux_set_power_mode]
  · cases u <;> simp_all [lux_get_uncomp_data]

/-- C7, instance: a handle whose `write` callback is absent. -/
theorem null_handle_no_transaction_witness :
    handle_absent (some { dev0 Nat 7 with write := none }) ∧
    lux_init (busConst [0xA0]) (some { dev0 Nat 7 with write := none }) [] =
      ⟨LUX_E_NULL_PTR, some { dev0 Nat 7 with write := none }, []⟩ ∧
    lux_set_power_mode (busConst [0xA0]) 1 (some { dev0 Nat 7 with write := none }) [] =
      ⟨LUX_E_NULL_PTR, some { dev0 Nat 7 with write := none }, []⟩ ∧
    lux_get_uncomp_data (busConst [0xA0]) (some ⟨1, 2⟩) (some { dev0 Nat 7 with write := none }) [] =
      ⟨LUX_E_NULL_PTR, some ⟨1, 2⟩, []⟩ :=
  have ha : handle_absent (some { dev0 Nat 7 with write := none }) := Or.inr (Or.inl rfl)
  have h := null_handle_no_transaction (busConst [0xA0]) (some { dev0 Nat 7 with write := none }) []
    (some 9) (some ⟨0, 0, 0⟩) (some 0) 1 (some ⟨1, 2⟩) ha
  ⟨ha, h.2.2.1, h.2.2.2.2.2.2.2.1, h.2.2.2.2.2.2.2.2⟩

end ReadoutClaims

/-! ## C8, C9: failures inside the configuration protocol -/

section FailureClaims

variable {Cfg : Type}

/-- C8: for every handle (valid or not), mode, desired configuration (null or
not) and transport, when `conf_sensor` returns a code other than `LUX_OK` the
device structure, and with it the cached configuration, is the same after the
call as before.  The configuration is the `struct lux_config` of the header.
Through the two public entry points the same holds for every payload type:
`lux_set_config` runs the protocol in Sleep mode, where the copy into the cache
is the last step, and `lux_set_power_mode` runs it on the cached configuration
itself. -/
theorem conf_sensor_failure_keeps_conf (bus : Bus) (mode : Nat) (conf : Option lux_config)
    (dev : Option (lux_dev lux_config)) (tr : List BusEvent)
    (hfail : (conf_sensor bus mode conf dev tr).rslt ≠ LUX_OK) :
    (conf_sensor bus mode conf dev tr).val.map (fun x => x.conf) = dev.map (fun x => x.conf) ∧
    (conf_sensor bus mode conf dev tr).val = dev ∧
    (∀ (C : Type) (c : Option C) (dv : Option (lux_dev C)),
      (lux_set_config bus c dv tr).rslt ≠ LUX_OK → (lux_set_config bus c dv tr).val = dv) ∧
    (∀ (C : Type) (m : Nat) (dv : lux_dev C),
      (lux_set_power_mode bus m (some dv) tr).rslt ≠ LUX_OK →
        (lux_set_power_mode bus m (some dv) tr).val = some dv) := by
  have hval : (conf_sensor bus mode conf dev tr).val = dev := by
    rcases conf_sensor_failure_cases bus mode conf dev tr hfail with h | ⟨_, c, d, _, hd, h⟩
    · exact h
    · rw [h, hd, lux_dev_copy_conf]
  refine ⟨by rw [hval], hval, ?_, ?_⟩
  · intro C c dv h
    exact conf_sensor_sleep_failure bus c dv tr h
  · intro C m dv _
    rw [lux_set_power_mode_some]
    exact conf_sensor_own_conf bus m dv tr

/-- C8, instance: mode 1; the read, the reset write and the 2-byte write
succeed and the final 1-byte power-mode write fails with `LUX_E_COMM_FAIL`.
The code comes back and the device structure is the one from before. -/
theorem conf_sensor_failure_keeps_conf_witness :
    (conf_sensor
        (busScript (fun _ => (LUX_OK, [0x12, 0x34])) (fun n => if n < 2 then LUX_OK else LUX_E_COMM_FAIL))
        1 (some {}) (some (dev0 lux_config {})) []).rslt = LUX_E_COMM_FAIL ∧
    (conf_sensor
        (busScript (fun _ => (LUX_OK, [0x12, 0x34])) (fun n => if n < 2 then LUX_OK else LUX_E_COMM_FAIL))
        1 (some {}) (some (dev0 lux_config {})) []).rslt ≠ LUX_OK ∧
    (conf_sensor
        (busScript (fun _ => (LUX_OK, [0x12, 0x34])) (fun n => if n < 2 then LUX_OK else LUX_E_COMM_FAIL))
        1 (some {}) (some (dev0 lux_config {})) []).val = some (dev0 lux_config {}) :=
  ⟨by decide, by decide,
   (conf_sensor_failure_keeps_conf
      (busScript (fun _ => (LUX_OK, [0x12, 0x34])) (fun n => if n < 2 then LUX_OK else LUX_E_COMM_FAIL))
      1 (some {}) (some (dev0 lux_config {})) [] (by decide)).2.1⟩

/-- C9: in `conf_sensor` on a valid handle with a non-null configuration the
first failing step ends the protocol and its code is the result.
* When the initial 2-byte read fails, only that read is made (no write, no
  delay) and its code is returned.
* When the read succeeds and the soft-reset write fails, the 10 ms delay is
  still made, no 2-byte write and no power-mode write follows, and the code of
  the reset write is returned.
* When both succeed and the 2-byte write fails, no power-mode write follows and
  the code of the 2-byte write is returned.
In all three cases the device structure is left as it was. -/
theorem conf_sensor_first_failure (bus : Bus) (mode : Nat) (c : Cfg) (d : lux_dev Cfg)
    (tr : List BusEvent) (hv : handle_valid d) :
    ((bus.get_regs tr 0x85 2).1 ≠ LUX_OK →
      conf_sensor bus mode (some c) (some d) tr =
        ⟨(bus.get_regs tr 0x85 2).1, some d, tr ++ [BusEvent.get_regs 0x85 2]⟩) ∧
    ((bus.get_regs tr 0x85 2).1 = LUX_OK →
      bus.set_regs (tr ++ [BusEvent.get_regs 0x85 2]) [0x80] [0x03] 1 ≠ LUX_OK →
      conf_sensor bus mode (some c) (some d) tr =
        ⟨bus.set_regs (tr ++ [BusEvent.get_regs 0x85 2]) [0x80] [0x03] 1, some d,
         tr ++ [BusEvent.get_regs 0x85 2, BusEvent.set_regs [0x80] [0x03] 1,
           BusEvent.delay_ms 10]⟩) ∧
    ((bus.get_regs tr 0x85 2).1 = LUX_OK →
      bus.set_regs (tr ++ [BusEvent.get_regs 0x85 2]) [0x80] [0x03] 1 = LUX_OK →
      bus.set_regs
        (tr ++ [BusEvent.get_regs 0x85 2, BusEvent.set_regs [0x80] [0x03] 1,
          BusEvent.delay_ms 10])
        [0x85, 0x00] (conf_temp bus tr) 2 ≠ LUX_OK →
      conf_sensor bus mode (some c) (some d) tr =
        ⟨bus.set_regs
           (tr ++ [BusEvent.get_regs 0x85 2, BusEvent.set_regs [0x80] [0x03] 1,
             BusEvent.delay_ms 10])
           [0x85, 0x00] (conf_temp bus tr) 2,
         some d,
         tr ++ [BusEvent.get_regs 0x85 2, BusEvent.set_regs [0x80] [0x03] 1,
           BusEvent.delay_ms 10, BusEvent.set_regs [0x85, 0x00] (conf_temp bus tr) 2]⟩) := by
  rw [conf_sensor_of_valid bus mode c d tr hv]
  refine ⟨fun h1 => ?_, fun h1 h2 => ?_, fun h1 h2 h3 => ?_⟩
  · rw [if_neg h1]
  · rw [if_pos h1, if_neg h2]
  · rw [if_pos h1, if_pos h2, if_neg h3]

/-- C9, instances: mode 1 with the read failing (-4), with the reset write
failing (-3), and with the 2-byte write failing (-5). -/
theorem conf_sensor_first_failure_witness :
    conf_sensor (busScript (fun _ => (LUX_E_COMM_FAIL, [])) (fun _ => LUX_OK))
        1 (some 9) (some (dev0 Nat 7)) [] =
      ⟨LUX_E_COMM_FAIL, some (dev0 Nat 7), [BusEvent.get_regs 0x85 2]⟩ ∧
    conf_sensor (busScript (fun _ => (LUX_OK, [0x12, 0x34])) (fun _ => LUX_E_INVALID_LEN))
        1 (some 9) (some (dev0 Nat 7)) [] =
      ⟨LUX_E_INVALID_LEN, some (dev0 Nat 7),
       [BusEvent.get_regs 0x85 2, BusEvent.set_regs [0x80] [0x03] 1, BusEvent.delay_ms 10]⟩ ∧
    conf_sensor
        (busScript (fun _ => (LUX_OK, [0x12, 0x34]))
          (fun n => if n < 1 then LUX_OK else LUX_E_INVALID_MODE))
        1 (some 9) (some (dev0 Nat 7)) [] =
      ⟨LUX_E_INVALID_MODE, some (dev0 Nat 7),
       [BusEvent.get_regs 0x85 2, BusEvent.set_regs [0x80] [0x03] 1, BusEvent.delay_ms 10,
        BusEvent.set_regs [0x85, 0x00] [0x12, 0x34] 2]⟩ :=
  ⟨(conf_sensor_first_failure (busScript (fun _ => (LUX_E_COMM_FAIL, [])) (fun _ => LUX_OK))
      1 (9 : Nat) (dev0 Nat 7) [] (by decide)).1 (by decide),
   (conf_sensor_first_failure
      (busScript (fun _ => (LUX_OK, [0x12, 0x34])) (fun _ => LUX_E_INVALID_LEN))
      1 (9 : Nat) (dev0 Nat 7) [] (by decide)).2.1 (by decide) (by decide),
   (conf_sensor_first_failure
      (busScript (fun _ => (LUX_OK, [0x12, 0x34]))
        (fun n => if n < 1 then LUX_OK else LUX_E_INVALID_MODE))
      1 (9 : Nat) (dev0 Nat 7) [] (by decide)).2.2 (by decide) (by decide) (by decide)⟩

end FailureClaims

/-! ## C10: the cached chip id -/

section ChipIdClaims

variable {Cfg : Type}

theorem chip_id_after_nil (old : Nat) (r : Int) : chip_id_after old (r, []) = old := by
  simp [chip_id_after, store_bytes]

theorem chip_id_after_cons (old : Nat) (r : Int) (b : Nat) (l : List Nat) :
    chip_id_after old (r, b :: l) = b % 256 := by
  simp [chip_id_after, store_bytes]

theorem chip_id_seen_of_silent (bus : Bus) (tr : List BusEvent) (c0 : Nat) (n : Nat)
    (h : ∀ j, j < n → (bus.get_regs (tr ++ failed_attempts j) LUX_CHIP_ID_ADDR 1).2 = []) :
    chip_id_seen bus tr c0 n = c0 := by
  induction n with
  | zero => rfl
  | succ n ih =>
    have hn := h n (Nat.lt_succ_self n)
    rw [chip_id_seen, ih (fun j hj => h j (Nat.lt_succ_of_lt hj))]
    rw [show bus.get_regs (tr ++ failed_attempts n) LUX_CHIP_ID_ADDR 1 =
      ((bus.get_regs (tr ++ failed_attempts n) LUX_CHIP_ID_ADDR 1).1, []) from
        Prod.ext rfl hn]
    exact chip_id_after_nil c0 _

/-- C10, counterexample: every chip-id read succeeds and delivers `0x55`.  No
read succeeds with `0xA0`, `lux_init` returns `LUX_E_DEV_NOT_FOUND`, and the
cached chip id, 0 before the call, is `0x55` after it: the read stores straight
into `dev->chip_id`. -/
theorem lux_init_not_found_overwrites_chip_id :
    (∀ j, j < 5 → ¬ identified (busConst [0x55]) [] (dev0 lux_config {}).chip_id j) ∧
    (lux_init (busConst [0x55]) (some (dev0 lux_config {})) []).rslt = LUX_E_DEV_NOT_FOUND ∧
    (dev0 lux_config {}).chip_id = 0 ∧
    (lux_init (busConst [0x55]) (some (dev0 lux_config {})) []).val.map (fun x => x.chip_id) =
      some 0x55 := by
  decide

/-- C10, amended: on a valid handle, when none of the five chip-id reads both
succeeds and leaves `0xA0` in `dev->chip_id`, `lux_init` returns
`LUX_E_DEV_NOT_FOUND` and changes nothing in the device structure but
`chip_id`, which holds what the five reads stored into it one after the other:
the byte delivered by the fifth read when it delivers one, and the value from
before the call when none of the five reads delivers a byte. -/
theorem lux_init_not_found_chip_id (bus : Bus) (d : lux_dev Cfg) (tr : List BusEvent)
    (hv : handle_valid d) (hno : ∀ j, j < 5 → ¬ identified bus tr d.chip_id j) :
    (lux_init bus (some d) tr).rslt = LUX_E_DEV_NOT_FOUND ∧
    (lux_init bus (some d) tr).val =
      some { d with chip_id := chip_id_seen bus tr d.chip_id 5 } ∧
    (∀ b l, (bus.get_regs (tr ++ failed_attempts 4) 0x86 1).2 = b :: l →
      (lux_init bus (some d) tr).val.map (fun x => x.chip_id) = some (b % 256)) ∧
    ((∀ j, j < 5 → (bus.get_regs (tr ++ failed_attempts j) 0x86 1).2 = []) →
      (lux_init bus (some d) tr).val = some d) := by
  obtain ⟨e1, e2, _⟩ := lux_init_loop_fail bus 5 LUX_OK d tr hno
  have hval : (lux_init bus (some d) tr).val =
      some { d with chip_id := chip_id_seen bus tr d.chip_id 5 } := by
    simp [lux_init, null_ptr_check_of_valid d hv, e2]
  refine ⟨?_, hval, ?_, ?_⟩
  · simp [lux_init, null_ptr_check_of_valid d hv, e1]
  · intro b l hb
    rw [hval]
    show some (chip_id_seen bus tr d.chip_id (4 + 1)) = some (b % 256)
    rw [chip_id_seen]
    rw [show bus.get_regs (tr ++ failed_attempts 4) LUX_CHIP_ID_ADDR 1 =
      ((bus.get_regs (tr ++ failed_attempts 4) LUX_CHIP_ID_ADDR 1).1, b :: l) from
        Prod.ext rfl hb]
    rw [chip_id_after_cons]
  · intro hs
    rw [hval, chip_id_seen_of_silent bus tr d.chip_id 5 hs]

/-- C10 amended, instance: every read fails and delivers nothing; the chip id
stays 0. -/
theorem lux_init_not_found_chip_id_witness :
    (lux_init (busScript (fun _ => (LUX_E_COMM_FAIL, [])) (fun _ => LUX_OK))
        (some (dev0 lux_config {})) []).rslt = LUX_E_DEV_NOT_FOUND ∧
    (lux_init (busScript (fun _ => (LUX_E_COMM_FAIL, [])) (fun _ => LUX_OK))
        (some (dev0 lux_config {})) []).val = some (dev0 lux_config {}) :=
  have h := lux_init_not_found_chip_id
    (busScript (fun _ => (LUX_E_COMM_FAIL, [])) (fun _ => LUX_OK)) (dev0 lux_config {}) []
    (by decide) (by decide)
  ⟨h.1, h.2.2.2 (by decide)⟩

end ChipIdClaims

/-! ## C11: which operations touch the cached configuration -/

section CacheClaims

variable {Cfg : Type}

theorem lux_init_loop_conf (bus : Bus) (n : Nat) :
    ∀ (rslt : Int) (d : lux_dev Cfg) (tr : List BusEvent),
      (lux_init_loop bus n rslt d tr).2.2.1.conf = d.conf := by
  induction n with
  | zero => intro rslt d tr; rfl
  | succ n ih =>
    intro rslt d tr
    rw [lux_init_loop_succ]
    split_ifs
    · rfl
    · rw [ih]

/-- C11: the cached configuration changes only inside `lux_set_config` and
`lux_set_power_mode`, after their 2-byte register write has succeeded; every
other operation leaves it equal to its value before the call.  For every
handle and transport:
* `lux_init` leaves the cached configuration as it was (any payload type);
* `lux_get_config` makes no register access and hands the device structure
  back as it was: its copy `dev->conf = *conf` is a copy of the header's
  `struct lux_config`, which has no member;
* when `lux_set_config` changes the cached configuration, its 2-byte register
  write has been made and has returned `LUX_OK` (any payload type);
* `lux_set_power_mode` leaves the cached configuration as it was (any payload
  type).
The four remaining operations (`lux_soft_reset`, `lux_get_status`,
`lux_get_power_mode`, `lux_get_uncomp_data`) take the handle as `const` and
hand no device structure back. -/
theorem cached_conf_changes_only_after_commit (bus : Bus) (dev : Option (lux_dev Cfg))
    (tr : List BusEvent) (mode : Nat) (conf : Option Cfg) :
    (lux_init bus dev tr).val.map (fun x => x.conf) = dev.map (fun x => x.conf) ∧
    (∀ (c : Option lux_config) (dv : Option (lux_dev lux_config)),
      (lux_get_config bus c dv tr).val = dv ∧
      (lux_get_config bus c dv tr).val.map (fun x => x.conf) = dv.map (fun x => x.conf) ∧
      (lux_get_config bus c dv tr).trace = tr) ∧
    ((lux_set_config bus conf dev tr).val.map (fun x => x.conf) ≠ dev.map (fun x => x.conf) →
      BusEvent.set_regs [0x85, 0x00] (conf_temp bus tr) 2 ∈
        (lux_set_config bus conf dev tr).trace.drop tr.length ∧
      bus.set_regs
        (tr ++ [BusEvent.get_regs 0x85 2, BusEvent.set_regs [0x80] [0x03] 1,
          BusEvent.delay_ms 10])
        [0x85, 0x00] (conf_temp bus tr) 2 = LUX_OK) ∧
    (lux_set_power_mode bus mode dev tr).val.map (fun x => x.conf) =
      dev.map (fun x => x.conf) := by
  refine ⟨?_, ?_, ?_, ?_⟩
  · cases dev with
    | none => rfl
    | some d =>
      by_cases hv : handle_valid d
      · simp [lux_init, null_ptr_check_of_valid d hv, lux_init_loop_conf]
      · simp [lux_init, null_ptr_check_of_not_valid d hv, LUX_E_NULL_PTR_ne_OK]
  · intro c dv
    have hval : (lux_get_config bus c dv tr).val = dv := by
      cases dv with
      | none => cases c <;> rfl
      | some d =>
        cases c with
        | none => rfl
        | some c0 =>
          simp only [lux_get_config]
          split_ifs
          · simp only [lux_dev_copy_conf]
          · rfl
    have htr : (lux_get_config bus c dv tr).trace = tr := by
      cases dv with
      | none => cases c <;> rfl
      | some d =>
        cases c with
        | none => rfl
        | some c0 =>
          simp only [lux_get_config]
          split_ifs <;> rfl
    exact ⟨hval, by rw [hval], htr⟩
  · intro hne
    cases dev with
    | none => cases conf <;> exact absurd rfl hne
    | some d =>
      cases conf with
      | none => exact absurd rfl hne
      | some c =>
        by_cases hv : handle_valid d
        · rw [lux_set_config, conf_sensor_of_valid bus LUX_SLEEP_MODE c d tr hv] at hne ⊢
          split_ifs at hne ⊢ <;> simp_all
        · exfalso
          apply hne
          simp [lux_set_config, conf_sensor, null_ptr_check_of_not_valid d hv,
            LUX_E_NULL_PTR_ne_OK]
  · cases dev with
    | none => rfl
    | some d => rw [lux_set_power_mode_some, conf_sensor_own_conf]

end CacheClaims

/-! ## C12, C14: the readouts -/

section ReadoutTraceClaims

variable {Cfg : Type}

/-- C12, evaluation: `lux_get_status` and `lux_get_power_mode` never store
into their output, whatever the arguments; in particular two successful calls
that read the same byte `0x04` hand back the two different prior contents of
the destination. -/
theorem readout_output_never_written :
    (∀ (bus : Bus) (status : Option lux_status) (dev : Option (lux_dev lux_config))
        (tr : List BusEvent), (lux_get_status bus status dev tr).val = status) ∧
    (∀ (bus : Bus) (mode : Option Nat) (dev : Option (lux_dev lux_config))
        (tr : List BusEvent), (lux_get_power_mode bus mode dev tr).val = mode) ∧
    lux_get_status (busConst [0x04]) (some ⟨1, 2, 3⟩) (some (dev0 lux_config {})) [] =
      ⟨LUX_OK, some ⟨1, 2, 3⟩, [BusEvent.get_regs 0x8C 1]⟩ ∧
    lux_get_status (busConst [0x04]) (some ⟨0, 0, 0⟩) (some (dev0 lux_config {})) [] =
      ⟨LUX_OK, some ⟨0, 0, 0⟩, [BusEvent.get_regs 0x8C 1]⟩ ∧
    lux_get_power_mode (busConst [0x04]) (some 5) (some (dev0 lux_config {})) [] =
      ⟨LUX_OK, some 5, [BusEvent.get_regs 0x85 1]⟩ ∧
    lux_get_power_mode (busConst [0x04]) (some 0) (some (dev0 lux_config {})) [] =
      ⟨LUX_OK, some 0, [BusEvent.get_regs 0x85 1]⟩ := by
  refine ⟨?_, ?_, by decide, by decide, by decide, by decide⟩
  · intro bus status dev tr
    simp only [lux_get_status]
    split_ifs <;> rfl
  · intro bus mode dev tr
    simp only [lux_get_power_mode]
    split_ifs <;> rfl

/-- C14: on a valid handle with a non-null output, `lux_get_status` makes one
1-byte read at `0x8C`, `lux_get_power_mode` one 1-byte read at `0x85` and
`lux_get_uncomp_data` one 4-byte read at `0x88`, with no write and no delay,
and each returns the result code of its read; with a null output each returns
`LUX_E_NULL_PTR` and makes no call. -/
theorem readouts_single_read (bus : Bus) (d : lux_dev Cfg) (tr : List BusEvent)
    (s : lux_status) (m : Nat) (u : lux_uncomp_data) (hv : handle_valid d) :
    ((lux_get_status bus (some s) (some d) tr).trace = tr ++ [BusEvent.get_regs 0x8C 1] ∧
      (lux_get_status bus (some s) (some d) tr).rslt = (bus.get_regs tr 0x8C 1).1) ∧
    ((lux_get_power_mode bus (some m) (some d) tr).trace = tr ++ [BusEvent.get_regs 0x85 1] ∧
      (lux_get_power_mode bus (some m) (some d) tr).rslt = (bus.get_regs tr 0x85 1).1) ∧
    ((lux_get_uncomp_data bus (some u) (some d) tr).trace = tr ++ [BusEvent.get_regs 0x88 4] ∧
      (lux_get_uncomp_data bus (some u) (some d) tr).rslt = (bus.get_regs tr 0x88 4).1) ∧
    lux_get_status bus none (some d) tr = ⟨LUX_E_NULL_PTR, none, tr⟩ ∧
    lux_get_power_mode bus none (some d) tr = ⟨LUX_E_NULL_PTR, none, tr⟩ ∧
    lux_get_uncomp_data bus none (some d) tr = ⟨LUX_E_NULL_PTR, none, tr⟩ := by
  have hn := null_ptr_check_of_valid d hv
  refine ⟨?_, ?_, ?_, ?_, ?_, ?_⟩
  · simp [lux_get_status, hn, lux_get_regs, LUX_STATUS_ADDR]
  · simp [lux_get_power_mode, hn, lux_get_regs, LUX_CTRL_MEAS_ADDR]
  · simp [lux_get_uncomp_data, hn, lux_get_regs, LUX_DATA_CH1_0_ADDR]
  · simp [lux_get_status]
  · simp [lux_get_power_mode]
  · simp [lux_get_uncomp_data]

/-- C14, instance: every read fails with `LUX_E_COMM_FAIL`; each readout makes
its single read and returns that code. -/
theorem readouts_single_read_witness :
    handle_valid (dev0 lux_config {}) ∧
    (lux_get_status (busScript (fun _ => (LUX_E_COMM_FAIL, [])) (fun _ => LUX_OK))
        (some ⟨1, 2, 3⟩) (some (dev0 lux_config {})) []).trace = [BusEvent.get_regs 0x8C 1] ∧
    (lux_get_status (busScript (fun _ => (LUX_E_COMM_FAIL, [])) (fun _ => LUX_OK))
        (some ⟨1, 2, 3⟩) (some (dev0 lux_config {})) []).rslt = LUX_E_COMM_FAIL ∧
    (lux_get_uncomp_data (busScript (fun _ => (LUX_E_COMM_FAIL, [])) (fun _ => LUX_OK))
        (some ⟨1, 2⟩) (some (dev0 lux_config {})) []).trace = [BusEvent.get_regs 0x88 4] ∧
    (lux_get_uncomp_data (busScript (fun _ => (LUX_E_COMM_FAIL, [])) (fun _ => LUX_OK))
        (some ⟨1, 2⟩) (some (dev0 lux_config {})) []).rslt = LUX_E_COMM_FAIL :=
  have h := readouts_single_read (busScript (fun _ => (LUX_E_COMM_FAIL, [])) (fun _ => LUX_OK))
    (dev0 lux_config {}) [] ⟨1, 2, 3⟩ 5 ⟨1, 2⟩ (by decide)
  ⟨by decide, h.1.1, h.1.2, h.2.2.1.1, h.2.2.1.2⟩

end ReadoutTraceClaims

/-! ## C13: two soft resets in a row -/

section ResetClaims

variable {Cfg : Type}

/-- C13: two calls of `lux_soft_reset` in a row on a valid handle make the
calls write `0x03` to `0x80`, delay 10, write `0x03` to `0x80`, delay 10; the
handle is `const` in both; the first call returns the code of the first write
and the second call the code of the second write, whatever the first returned. -/
theorem lux_soft_reset_twice (bus : Bus) (d : lux_dev Cfg) (tr : List BusEvent)
    (hv : handle_valid d) :
    (lux_soft_reset bus (some d) (lux_soft_reset bus (some d) tr).2).2 =
      tr ++ [BusEvent.set_regs [0x80] [0x03] 1, BusEvent.delay_ms 10,
             BusEvent.set_regs [0x80] [0x03] 1, BusEvent.delay_ms 10] ∧
    (lux_soft_reset bus (some d) tr).1 = bus.set_regs tr [0x80] [0x03] 1 ∧
    (lux_soft_reset bus (some d) (lux_soft_reset bus (some d) tr).2).1 =
      bus.set_regs (tr ++ [BusEvent.set_regs [0x80] [0x03] 1, BusEvent.delay_ms 10])
        [0x80] [0x03] 1 := by
  rw [lux_soft_reset_of_valid bus d tr hv, lux_soft_reset_of_valid bus d _ hv]
  refine ⟨?_, rfl, rfl⟩
  simp [LUX_CONTR_ADDR, LUX_SOFT_RESET_CMD]

/-- C13, instance: the first write fails with `LUX_E_COMM_FAIL`, the second
succeeds; the second call returns `LUX_OK`. -/
theorem lux_soft_reset_twice_witness :
    handle_valid (dev0 lux_config {}) ∧
    (lux_soft_reset (busScript (fun _ => (LUX_OK, [])) (fun n => if n < 1 then LUX_E_COMM_FAIL else LUX_OK))
        (some (dev0 lux_config {})) []).1 = LUX_E_COMM_FAIL ∧
    (lux_soft_reset (busScript (fun _ => (LUX_OK, [])) (fun n => if n < 1 then LUX_E_COMM_FAIL else LUX_OK))
        (some (dev0 lux_config {}))
        (lux_soft_reset
          (busScript (fun _ => (LUX_OK, [])) (fun n => if n < 1 then LUX_E_COMM_FAIL else LUX_OK))
          (some (dev0 lux_config {})) []).2).2 =
      [BusEvent.set_regs [0x80] [0x03] 1, BusEvent.delay_ms 10,
       BusEvent.set_regs [0x80] [0x03] 1, BusEvent.delay_ms 10] ∧
    (lux_soft_reset (busScript (fun _ => (LUX_OK, [])) (fun n => if n < 1 then LUX_E_COMM_FAIL else LUX_OK))
        (some (dev0 lux_config {}))
        (lux_soft_reset
          (busScript (fun _ => (LUX_OK, [])) (fun n => if n < 1 then LUX_E_COMM_FAIL else LUX_OK))
          (some (dev0 lux_config {})) []).2).1 = LUX_OK :=
  have h := lux_soft_reset_twice
    (busScript (fun _ => (LUX_OK, [])) (fun n => if n < 1 then LUX_E_COMM_FAIL else LUX_OK))
    (dev0 lux_config {}) [] (by decide)
  ⟨by decide, h.2.1, h.1, h.2.2⟩

end ResetClaims

/-! ## C15, C16: the power mode and the bytes committed by `conf_sensor` -/

section PowerModeClaims

variable {Cfg : Type}

/-- C15: for every handle that is there (valid or not), every mode and every
transport, `lux_set_power_mode` gives the trace and the result of `conf_sensor`
run on the handle's own cached configuration, the device structure after the
call is the one before it (so the cached configuration is unchanged on success
and on failure), and with `LUX_SLEEP_MODE` the call is `lux_set_config` applied
to the cached configuration. -/
theorem lux_set_power_mode_reuses_conf_sensor (bus : Bus) (mode : Nat) (d : lux_dev Cfg)
    (tr : List BusEvent) :
    lux_set_power_mode bus mode (some d) tr = conf_sensor bus mode (some d.conf) (some d) tr ∧
    (lux_set_power_mode bus mode (some d) tr).val = some d ∧
    (lux_set_power_mode bus mode (some d) tr).val.map (fun x => x.conf) = some d.conf ∧
    lux_set_power_mode bus LUX_SLEEP_MODE (some d) tr =
      lux_set_config bus (some d.conf) (some d) tr := by
  have hE : ∀ m, lux_set_power_mode bus m (some d) tr =
      conf_sensor bus m (some d.conf) (some d) tr := by
    intro m
    by_cases hv : handle_valid d
    · simp [lux_set_power_mode, null_ptr_check_of_valid d hv]
    · simp [lux_set_power_mode, conf_sensor, null_ptr_check_of_not_valid d hv,
        LUX_E_NULL_PTR_ne_OK]
  have hval : (lux_set_power_mode bus mode (some d) tr).val = some d := by
    rw [hE]
    by_cases hv : handle_valid d
    · rw [conf_sensor_of_valid bus mode d.conf d tr hv]
      split_ifs <;> rfl
    · simp [conf_sensor, null_ptr_check_of_not_valid d hv, LUX_E_NULL_PTR_ne_OK]
  refine ⟨hE mode, hval, by rw [hval]; rfl, ?_⟩
  rw [hE, lux_set_config]

theorem conf_temp_bytes (bus : Bus) (tr : List BusEvent) :
    conf_temp bus tr =
      [(bus.get_regs tr 0x85 2).2.getD 0 0 % 256, (bus.get_regs tr 0x85 2).2.getD 1 0 % 256] := by
  simp only [conf_temp, LUX_CTRL_MEAS_ADDR]
  rcases (bus.get_regs tr 0x85 2).2 with _ | ⟨a, _ | ⟨b, l⟩⟩ <;> simp [store_bytes]

/-- C16: in `conf_sensor` on a valid handle with a non-null configuration, for
every mode, configuration and transport, every register write made is the reset
write (`0x03` to `0x80`), the 2-byte write to the address pair `[0x85, 0x00]`
or the 1-byte write to `0x85`.  The 2-byte write carries the two bytes left in
`temp` by the initial read at `0x85` (the byte delivered, or 0 where the read
delivered none) and the 1-byte write carries the first of them; neither the
trace nor the result depends on the desired configuration. -/
theorem conf_sensor_committed_bytes (bus : Bus) (mode : Nat) (c : Cfg) (d : lux_dev Cfg)
    (tr : List BusEvent) (hv : handle_valid d) :
    (∀ e ∈ (conf_sensor bus mode (some c) (some d) tr).trace.drop tr.length,
      e.isSet = true →
        e = BusEvent.set_regs [0x80] [0x03] 1 ∨
        e = BusEvent.set_regs [0x85, 0x00]
          [(bus.get_regs tr 0x85 2).2.getD 0 0 % 256, (bus.get_regs tr 0x85 2).2.getD 1 0 % 256] 2 ∨
        e = BusEvent.set_regs [0x85] [(bus.get_regs tr 0x85 2).2.getD 0 0 % 256] 1) ∧
    (∀ c2 : Cfg,
      (conf_sensor bus mode (some c2) (some d) tr).trace =
        (conf_sensor bus mode (some c) (some d) tr).trace ∧
      (conf_sensor bus mode (some c2) (some d) tr).rslt =
        (conf_sensor bus mode (some c) (some d) tr).rslt) ∧
    (mode ≠ LUX_SLEEP_MODE → bus_all_ok bus →
      (conf_sensor bus mode (some c) (some d) tr).trace =
        tr ++ [BusEvent.get_regs 0x85 2, BusEvent.set_regs [0x80] [0x03] 1, BusEvent.delay_ms 10,
          BusEvent.set_regs [0x85, 0x00]
            [(bus.get_regs tr 0x85 2).2.getD 0 0 % 256, (bus.get_regs tr 0x85 2).2.getD 1 0 % 256] 2,
          BusEvent.set_regs [0x85] [(bus.get_regs tr 0x85 2).2.getD 0 0 % 256] 1]) := by
  have hT := conf_temp_bytes bus tr
  refine ⟨?_, ?_, ?_⟩
  · intro e he hset
    rw [conf_sensor_of_valid bus mode c d tr hv] at he
    rw [hT] at he
    split_ifs at he <;>
      simp only [List.drop_left, List.mem_cons, List.mem_singleton, List.take, List.not_mem_nil,
        or_false] at he <;>
      (try casesm* _ ∨ _) <;> subst_vars <;>
      first
        | exact absurd hset (by decide)
        | exact Or.inl rfl
        | exact Or.inr (Or.inl rfl)
        | exact Or.inr (Or.inr rfl)
  · intro c2
    rw [conf_sensor_of_valid bus mode c d tr hv, conf_sensor_of_valid bus mode c2 d tr hv]
    split_ifs <;> exact ⟨rfl, rfl⟩
  · intro hm hok
    rw [conf_sensor_of_valid bus mode c d tr hv, hT]
    simp [hok.1, hok.2, hm]

/-- C16, instance: mode 1, the read delivers the single byte `0x12` (the second
byte of `temp` stays 0), every call succeeds. -/
theorem conf_sensor_committed_bytes_witness :
    handle_valid (dev0 Nat 7) ∧
    (conf_sensor (busConst [0x12]) 1 (some 9) (some (dev0 Nat 7)) []).trace =
      [BusEvent.get_regs 0x85 2, BusEvent.set_regs [0x80] [0x03] 1, BusEvent.delay_ms 10,
        BusEvent.set_regs [0x85, 0x00] [0x12, 0] 2, BusEvent.set_regs [0x85] [0x12] 1] :=
  ⟨by decide,
   (conf_sensor_committed_bytes (busConst [0x12]) 1 (9 : Nat) (dev0 Nat 7) [] (by decide)).2.2
     (by decide) ⟨fun _ _ _ => rfl, fun _ _ _ _ => rfl⟩⟩

end PowerModeClaims

/-! ## C17: interleaving addresses and data -/

section InterleaveClaims

/-- The loop of `interleave_data` from `index ≥ 1`, for `len ≤ 255`: with at
least `len - index` rounds allowed it is left, the positions below
`index * 2 - 1` and from `2 * len - 1` on are as before, and each later index
`i < len` has its address at `i * 2 - 1` and its data byte at `i * 2`. -/
theorem interleave_loop_spec (reg_addr reg_data : List Nat) (len : Nat) (hlen : len ≤ 255)
    (fuel : Nat) :
    ∀ (index : Nat) (buf : List Nat), 1 ≤ index → len - index ≤ fuel →
      ∃ out, interleave_loop reg_addr reg_data len fuel index buf = some out ∧
        out.length = buf.length ∧
        (∀ p, p + 1 < index * 2 ∨ 2 * len - 1 ≤ p → out[p]? = buf[p]?) ∧
        (∀ i, index ≤ i → i < len → i * 2 < buf.length →
          out[i * 2 - 1]? = some (reg_addr.getD i 0) ∧
          out[i * 2]? = some (reg_data.getD i 0)) := by
  induction fuel with
  | zero =>
    intro index buf _ hf
    refine ⟨buf, ?_, rfl, fun _ _ => rfl, ?_⟩
    · rw [interleave_loop, if_neg (by omega)]
    · intro i hi hil; omega
  | succ fuel ih =>
    intro index buf h1 hf
    by_cases hlt : index < len
    · have hwrap : (index + 1) % 256 = index + 1 := Nat.mod_eq_of_lt (by omega)
      obtain ⟨out, ho, hl, hu, hv⟩ := ih (index + 1)
        ((buf.set (index * 2 - 1) (reg_addr.getD index 0)).set (index * 2)
          (reg_data.getD index 0)) (by omega) (by omega)
      simp only [List.length_set] at hl hv
      refine ⟨out, ?_, hl, ?_, ?_⟩
      · rw [interleave_loop, if_pos hlt]
        simp only [hwrap]
        exact ho
      · intro p hp
        rw [hu p (by omega), List.getElem?_set_ne (by omega), List.getElem?_set_ne (by omega)]
      · intro i hi hil hib
        rcases Nat.eq_or_lt_of_le hi with heq | hgt
        · subst heq
          constructor
          · rw [hu _ (by omega), List.getElem?_set_ne (by omega),
              List.getElem?_set_self (by omega)]
          · rw [hu _ (by omega), List.getElem?_set_self (by simp only [List.length_set]; omega)]
        · exact hv i hgt hil hib
    · refine ⟨buf, ?_, rfl, fun _ _ => rfl, ?_⟩
      · rw [interleave_loop, if_neg hlt]
      · intro i hi hil; omega

/-- C17: for `len` in 0..255, address and data arrays of length `len` and a
buffer with room for `2 * len - 1` bytes, the loop of `interleave_data` is left
and afterwards `temp_buff[2 * i - 1] = reg_addr[i]` and
`temp_buff[2 * i] = reg_data[i]` for every `1 ≤ i < len`, while position 0 and
every position from `2 * len - 1` on are as before; for `len ≤ 1` the buffer is
not modified at all. -/
theorem interleave_data_spec (reg_addr temp_buff reg_data : List Nat) (len : Nat)
    (hlen : len ≤ 255) (ha : reg_addr.length = len) (hd : reg_data.length = len)
    (hb : 2 * len - 1 ≤ temp_buff.length) :
    ∃ out, interleave_data reg_addr temp_buff reg_data len = some out ∧
      out.length = temp_buff.length ∧
      (∀ i, 1 ≤ i → i < len →
        out[2 * i - 1]? = reg_addr[i]? ∧ out[2 * i]? = reg_data[i]? ∧
        reg_addr[i]? ≠ none ∧ reg_data[i]? ≠ none) ∧
      out[0]? = temp_buff[0]? ∧
      (∀ p, 2 * len - 1 ≤ p → out[p]? = temp_buff[p]?) ∧
      (len ≤ 1 → out = temp_buff) := by
  obtain ⟨out, ho, hl, hu, hv⟩ :=
    interleave_loop_spec reg_addr reg_data len hlen 256 1 temp_buff (Nat.le_refl 1) (by omega)
  refine ⟨out, ho, hl, ?_, hu 0 (Or.inl (by omega)), fun p hp => hu p (Or.inr hp), ?_⟩
  · intro i h1 hil
    have hia : i < reg_addr.length := by omega
    have hid : i < reg_data.length := by omega
    obtain ⟨e1, e2⟩ := hv i h1 hil (by omega)
    rw [Nat.mul_comm 2 i, e1, e2, List.getElem?_eq_getElem hia, List.getElem?_eq_getElem hid,
      List.getD_eq_getElem _ _ hia, List.getD_eq_getElem _ _ hid]
    exact ⟨rfl, rfl, by simp, by simp⟩
  · intro h1
    apply List.ext_getElem?
    intro p
    by_cases hp : p = 0
    · subst hp; exact hu 0 (Or.inl (by omega))
    · exact hu p (Or.inr (by omega))

/-- C17, instance: four addresses and four data bytes into a buffer of eight;
the result is `[10, 2, 6, 3, 7, 4, 8, 80]`. -/
theorem interleave_data_spec_witness :
    interleave_data [1, 2, 3, 4] [10, 20, 30, 40, 50, 60, 70, 80] [5, 6, 7, 8] 4 =
      some [10, 2, 6, 3, 7, 4, 8, 80] ∧
    ∃ out, interleave_data [1, 2, 3, 4] [10, 20, 30, 40, 50, 60, 70, 80] [5, 6, 7, 8] 4 =
        some out ∧
      out.length = [10, 20, 30, 40, 50, 60, 70, 80].length ∧
      (∀ i, 1 ≤ i → i < 4 →
        out[2 * i - 1]? = [1, 2, 3, 4][i]? ∧ out[2 * i]? = [5, 6, 7, 8][i]? ∧
        [1, 2, 3, 4][i]? ≠ none ∧ [5, 6, 7, 8][i]? ≠ none) ∧
      out[0]? = [10, 20, 30, 40, 50, 60, 70, 80][0]? ∧
      (∀ p, 2 * 4 - 1 ≤ p → out[p]? = [10, 20, 30, 40, 50, 60, 70, 80][p]?) ∧
      (4 ≤ 1 → out = [10, 20, 30, 40, 50, 60, 70, 80]) :=
  ⟨by decide,
   interleave_data_spec [1, 2, 3, 4] [10, 20, 30, 40, 50, 60, 70, 80] [5, 6, 7, 8] 4
     (by decide) rfl rfl (by decide)⟩

end InterleaveClaims
